import Mathlib

/-!
Verification of the life-plan simulation engine (`calculator.py`).

The Python source is shallowly embedded: monetary floating-point values
become exact rationals (ℚ), Python dicts with string keys become
association lists, and the mutable simulation state becomes explicit
state passing.  Every definition mirrors the corresponding Python
function; line references point into `src/calculator.py`.
-/

namespace LifePlan

/-- Python `round` (banker's rounding, round half to even) on an exact
rational value. Used by `apply_inflation` (calculator.py line 373). -/
def pyRound (q : ℚ) : ℤ :=
  let f := Int.floor q
  let frac := q - f
  if frac < 1/2 then f
  else if 1/2 < frac then f + 1
  else if f % 2 = 0 then f else f + 1

/-- Python `d.get(k, 0)` on a string-keyed dict of numbers. -/
def dget (d : List (String × ℚ)) (k : String) : ℚ :=
  (List.lookup k d).getD 0

/-- Python `sum(d.values())`. -/
def dvalsum (d : List (String × ℚ)) : ℚ :=
  (d.map Prod.snd).sum

/-- Python dict merge `\x7b**a, **b\x7d`: keys of `b` win. -/
def dmerge (a b : List (String × ℚ)) : List (String × ℚ) :=
  a.filter (fun p => (List.lookup p.1 b).isNone) ++ b

/-- Python `assets.get(fund_key, 0)` on the Nat-keyed custom-fund dict. -/
def aget (l : List (Nat × ℚ)) (k : Nat) : ℚ :=
  (List.lookup k l).getD 0

/-- Python `assets[fund_key] = v` (the key is always present when used). -/
def aset (l : List (Nat × ℚ)) (k : Nat) (v : ℚ) : List (Nat × ℚ) :=
  l.map (fun p => if p.1 = k then (k, v) else p)

/-- Python `fund_key in assets`. -/
def amem (l : List (Nat × ℚ)) (k : Nat) : Bool :=
  (List.lookup k l).isSome

/-- List of intermediate accumulator states of a left fold (the state
after each step); used to state invariants over every simulated step. -/
def foldTrace (f : α → β → α) : α → List β → List α
  | _, [] => []
  | a, b :: bs => let a' := f a b; a' :: foldTrace f a' bs

/-! ## Configuration data (the JSON plan document, `data_loader.py`)

Each structure holds the values the engine reads from the plan JSON.
Optional keys read with `.get(key, default)` are embedded as plain
fields holding the resolved value; boolean `enabled` toggles are kept. -/

structure BasicInfo where
  start_age : Nat
  end_age : Nat
  birth_month : Nat
  marriage_age : Nat
  first_child_birth_age : Nat
  second_child_birth_age : Nat
deriving Repr, DecidableEq

structure MarriageEvent where
  age : Nat
  cost : ℚ
deriving Repr, DecidableEq

structure HomePurchaseEvent where
  age : Nat
  down_payment : ℚ
  closing_costs : ℚ
deriving Repr, DecidableEq

structure LifeEvents where
  marriage : MarriageEvent
  home_purchase : HomePurchaseEvent
deriving Repr, DecidableEq

/-- One value of the `income_progression` table (keyed by anchor age). -/
structure SalaryEntry where
  base_salary : ℚ
  bonus_months : ℚ
deriving Repr, DecidableEq

structure NisaSettings where
  tsumitate_limit : ℚ
  growth_limit : ℚ
  expected_return : ℚ
deriving Repr, DecidableEq

structure TaxableAccountSettings where
  expected_return : ℚ
deriving Repr, DecidableEq

structure EducationFundSettings where
  expected_return : ℚ
deriving Repr, DecidableEq

structure CompanyStockSettings where
  initial_price : ℚ
  price_growth_rate : ℚ
  dividend_yield : ℚ
  incentive_rate : ℚ
deriving Repr, DecidableEq

structure DividendReinvestment where
  age_0_45 : ℚ
  age_46_55 : ℚ
  age_56_64 : ℚ
  age_65_99 : ℚ
deriving Repr, DecidableEq

structure InvestmentSettings where
  nisa : NisaSettings
  taxable_account : TaxableAccountSettings
  education_fund : EducationFundSettings
  company_stock : CompanyStockSettings
  dividend_reinvestment : DividendReinvestment
deriving Repr, DecidableEq

structure HealthInsurance where
  max_monthly_salary : ℚ
  rate : ℚ
deriving Repr, DecidableEq

structure EmployeePension where
  max_monthly_salary : ℚ
  rate : ℚ
  employee_share : ℚ
deriving Repr, DecidableEq

structure EmploymentInsurance where
  rate : ℚ
deriving Repr, DecidableEq

structure SocialInsuranceDetailed where
  enabled : Bool
  health_insurance : HealthInsurance
  employee_pension : EmployeePension
  employment_insurance : EmploymentInsurance
deriving Repr, DecidableEq

/-- The four progressive bands of `tax_rates["income_tax_rates"]`
(keys "0-5500000", "5500001-8000000", "8000001-10000000",
"10000001-99999999"). -/
structure IncomeTaxRates where
  band1 : ℚ
  band2 : ℚ
  band3 : ℚ
  band4 : ℚ
deriving Repr, DecidableEq

structure TaxRates where
  social_insurance_detailed : SocialInsuranceDetailed
  social_insurance_rate : ℚ
  income_tax_rates : IncomeTaxRates
deriving Repr, DecidableEq

structure InflationSettings where
  enabled : Bool
  living_expenses_rate : ℚ
  education_rate : ℚ
deriving Repr, DecidableEq

/-- `spouse_income` dict; fields are the values of `.get("28-47", 0)`
etc. (a missing key is a zero field). -/
structure SpouseIncome where
  band_28_47 : ℚ
  band_48_64 : ℚ
  band_65_99 : ℚ
deriving Repr, DecidableEq

structure DeferralOptions where
  enabled : Bool
  monthly_rate : ℚ
deriving Repr, DecidableEq

structure PensionSettings where
  monthly_amount : ℚ
  spouse_monthly_amount : ℚ
  start_age : Nat
  deferral_options : DeferralOptions
deriving Repr, DecidableEq

structure HousingCost where
  rent : ℚ
  mortgage : ℚ
  utilities : ℚ
deriving Repr, DecidableEq

/-- `housing_costs` dict with the three age-band keys. -/
structure HousingCosts where
  band_25_27 : HousingCost
  band_28_49 : HousingCost
  band_50_55 : HousingCost
deriving Repr, DecidableEq

/-- One phase of `phase_definitions`; `ages` "s-e" is parsed into the
two bounds, the three dicts keep their string keys. -/
structure Phase where
  ages_start : Nat
  ages_end : Nat
  monthly_expenses : List (String × ℚ)
  monthly_investment : List (String × ℚ)
  bonus_allocation : List (String × ℚ)
deriving Repr, DecidableEq

structure ChildAllowance where
  age_0_2 : ℚ
  age_3_14 : ℚ
  age_3_14_second_child : ℚ
deriving Repr, DecidableEq

/-- `education_costs_per_child` table flattened to its leaf values. -/
structure EducationCosts where
  age_0_5_childcare : ℚ
  age_6_11_school_fees : ℚ
  age_6_11_lessons : ℚ
  age_12_14_school_fees : ℚ
  age_12_14_cram_school : ℚ
  age_15_17_school_fees : ℚ
  age_15_17_cram_school : ℚ
  age_18_exam_fees : ℚ
deriving Repr, DecidableEq

structure CorporatePension where
  enabled : Bool
  start_age : Nat
  years : Nat
  monthly_amount : ℚ
deriving Repr, DecidableEq

structure RetirementBenefit where
  enabled : Bool
  lump_sum : ℚ
  years_of_service : Nat
  corporate_pension : CorporatePension
deriving Repr, DecidableEq

structure AutoSaving where
  enabled : Bool
  start_age : Option Nat
  monthly_amount : ℚ
deriving Repr, DecidableEq

structure CustomEvent where
  id : Nat
  enabled : Bool
  age : Nat
  amount : ℚ
  name : String
  auto_saving : AutoSaving
deriving Repr, DecidableEq

structure CustomEventsConfig where
  enabled : Bool
  events : List CustomEvent
deriving Repr, DecidableEq

/-- The whole plan document as read through `DataLoader`. -/
structure SimConfig where
  basic_info : BasicInfo
  life_events : LifeEvents
  income_progression : List (Nat × SalaryEntry)
  investment_settings : InvestmentSettings
  tax_rates : TaxRates
  inflation_settings : InflationSettings
  spouse_income : SpouseIncome
  pension : PensionSettings
  housing_allowance_45_49 : ℚ
  housing_costs : HousingCosts
  phase_definitions : List Phase
  child_allowance : ChildAllowance
  education_costs : EducationCosts
  high_school_subsidy : ℚ
  retirement_benefit : RetirementBenefit
  custom_events : CustomEventsConfig
deriving Repr, DecidableEq

/-! ## Income & tax calculator (calculator.py lines 34-109) -/

/-- Result dict of `calculate_social_insurance_detailed`. -/
structure SIDetail where
  health_insurance : ℚ
  employee_pension : ℚ
  employment_insurance : ℚ
  total : ℚ
deriving Repr, DecidableEq

/-- calculator.py lines 34-74. -/
def calculate_social_insurance_detailed (tr : TaxRates) (monthly_salary : ℚ) : SIDetail :=
  if tr.social_insurance_detailed.enabled then
    let si := tr.social_insurance_detailed
    let health_salary := min monthly_salary si.health_insurance.max_monthly_salary
    let health := health_salary * si.health_insurance.rate * (1/2)
    let pension_salary := min monthly_salary si.employee_pension.max_monthly_salary
    let pension := pension_salary * si.employee_pension.rate * si.employee_pension.employee_share
    let employment := monthly_salary * si.employment_insurance.rate
    { health_insurance := health, employee_pension := pension,
      employment_insurance := employment, total := health + pension + employment }
  else
    let total := monthly_salary * tr.social_insurance_rate
    { health_insurance := total * (4/10), employee_pension := total * (55/100),
      employment_insurance := total * (5/100), total := total }

/-- calculator.py lines 76-109. -/
def calculate_takehome (tr : TaxRates) (gross_annual : ℚ) (housing_allowance : ℚ) : ℚ :=
  let taxable_income := gross_annual + housing_allowance
  let monthly_average := taxable_income / 12
  let si_detail := calculate_social_insurance_detailed tr monthly_average
  let social_insurance := si_detail.total * 12
  let tax_base := taxable_income - social_insurance
  let tax_rate :=
    if taxable_income ≤ 5500000 then tr.income_tax_rates.band1
    else if taxable_income ≤ 8000000 then tr.income_tax_rates.band2
    else if taxable_income ≤ 10000000 then tr.income_tax_rates.band3
    else tr.income_tax_rates.band4
  let income_tax := tax_base * tax_rate
  taxable_income - social_insurance - income_tax

/-! ## Rule resolver (calculator.py lines 111-326, 464-527) -/

/-- The `for a in ages: if age >= a: applicable_age = a else: break` loop of
`get_salary_for_age` (calculator.py lines 125-129); `acc` is the running
`applicable_age` and the `else` branch models `break`. -/
def anchorLoop (age : Nat) : List Nat → Nat → Nat
  | [], acc => acc
  | a :: rest, acc => if a ≤ age then anchorLoop age rest a else acc

/-- calculator.py lines 111-132. The anchor-age keys are sorted as in
`sorted([int(a) for a in self.income_progression.keys()])`; an empty
table raises IndexError in Python and yields the zero entry here. -/
def get_salary_for_age (table : List (Nat × SalaryEntry)) (age : Nat) : SalaryEntry :=
  match (table.map Prod.fst).insertionSort (· ≤ ·) with
  | [] => ⟨0, 0⟩
  | a0 :: rest => (List.lookup (anchorLoop age (a0 :: rest) a0) table).getD ⟨0, 0⟩

/-- calculator.py lines 134-155. -/
def get_spouse_income_for_age (basic : BasicInfo) (spouse : SpouseIncome) (age : Nat) : ℚ :=
  if age < basic.marriage_age then 0
  else if age < 48 then spouse.band_28_47
  else if age < 65 then spouse.band_48_64
  else spouse.band_65_99

/-- calculator.py lines 157-193. -/
def calculate_pension_amount_detailed (p : PensionSettings) (start_age : Nat) : ℚ × ℚ :=
  let base_amount := p.monthly_amount
  let spouse_amount := p.spouse_monthly_amount
  if p.deferral_options.enabled then
    let months_diff : ℤ := ((start_age : ℤ) - 65) * 12
    let adjustment : ℚ :=
      if start_age < 65 then 1 - (months_diff.natAbs : ℚ) * (4/1000)
      else if 65 < start_age then 1 + (months_diff : ℚ) * p.deferral_options.monthly_rate
      else 1
    (base_amount * adjustment, spouse_amount * adjustment)
  else (base_amount, spouse_amount)

/-- calculator.py lines 195-214 (with the default `start_age=None`). -/
def get_pension_for_age (p : PensionSettings) (age : Nat) : ℚ :=
  let start_age := p.start_age
  if start_age ≤ age then (calculate_pension_amount_detailed p start_age).1 else 0

/-- calculator.py lines 238-252. -/
def get_housing_allowance_for_age (cfg : SimConfig) (age : Nat) : ℚ :=
  if 45 ≤ age ∧ age ≤ 49 then cfg.housing_allowance_45_49 else 0

/-- calculator.py lines 254-271. -/
def get_housing_costs_for_age (hc : HousingCosts) (age : Nat) : HousingCost :=
  if age ≤ 27 then hc.band_25_27
  else if age ≤ 49 then hc.band_28_49
  else hc.band_50_55

/-- calculator.py lines 273-292: first phase whose inclusive age range
contains the age, in table order. -/
def get_phase_for_age (phases : List Phase) (age : Nat) : Option Phase :=
  phases.find? (fun p => decide (p.ages_start ≤ age ∧ age ≤ p.ages_end))

/-- calculator.py lines 294-326. -/
def calculate_child_allowance (basic : BasicInfo) (ca : ChildAllowance) (age : Nat) : ℚ :=
  (if basic.first_child_birth_age ≤ age then
    let child1_age := age - basic.first_child_birth_age
    if child1_age ≤ 2 then ca.age_0_2
    else if child1_age ≤ 14 then ca.age_3_14
    else 0
  else 0) +
  (if basic.second_child_birth_age ≤ age then
    let child2_age := age - basic.second_child_birth_age
    if child2_age ≤ 2 then ca.age_3_14_second_child
    else if child2_age ≤ 14 then ca.age_3_14
    else 0
  else 0)

/-- calculator.py lines 357-373. The exponent is the signed year offset
(`years` is an `int` in Python). -/
def apply_inflation (inf : InflationSettings) (base_amount : ℚ) (years : ℤ) (rate : ℚ) : ℚ :=
  if inf.enabled then (pyRound (base_amount * (1 + rate) ^ years) : ℚ) else base_amount

/-- Result dict of `calculate_retirement_benefit_tax`. -/
structure RetirementTaxInfo where
  deduction : ℚ
  taxable_amount : ℚ
  tax : ℚ
  net_amount : ℚ
deriving Repr, DecidableEq

/-- calculator.py lines 375-417. -/
def calculate_retirement_benefit_tax (lump_sum : ℚ) (years_of_service : Nat) : RetirementTaxInfo :=
  let deduction : ℚ :=
    if years_of_service ≤ 20 then 400000 * years_of_service
    else 8000000 + 700000 * ((years_of_service : ℚ) - 20)
  let taxable_amount := max 0 ((lump_sum - deduction) / 2)
  let tax :=
    if taxable_amount ≤ 1950000 then taxable_amount * (5/100)
    else if taxable_amount ≤ 3300000 then taxable_amount * (1/10) - 97500
    else if taxable_amount ≤ 6950000 then taxable_amount * (2/10) - 427500
    else if taxable_amount ≤ 9000000 then taxable_amount * (23/100) - 636000
    else if taxable_amount ≤ 18000000 then taxable_amount * (33/100) - 1536000
    else taxable_amount * (4/10) - 2796000
  let total_tax := tax + taxable_amount * (1/10)
  { deduction := deduction, taxable_amount := taxable_amount,
    tax := total_tax, net_amount := lump_sum - total_tax }

/-- Fields of the `get_retirement_benefit` result used by the driver. -/
structure RetirementInfo where
  lump_sum_net : ℚ
  corporate_pension : ℚ
deriving Repr, DecidableEq

/-- calculator.py lines 419-462. -/
def get_retirement_benefit (cfg : SimConfig) (age : Nat) : RetirementInfo :=
  let rb := cfg.retirement_benefit
  if ¬ rb.enabled then ⟨0, 0⟩
  else if age = 65 then
    let tax_info := calculate_retirement_benefit_tax rb.lump_sum rb.years_of_service
    ⟨tax_info.net_amount, 0⟩
  else if rb.corporate_pension.enabled ∧
      rb.corporate_pension.start_age ≤ age ∧
      age < rb.corporate_pension.start_age + rb.corporate_pension.years then
    ⟨0, rb.corporate_pension.monthly_amount⟩
  else ⟨0, 0⟩

/-- calculator.py lines 478-486 (`get_custom_events` composed with the
enabled filters). -/
def get_active_custom_events (cfg : SimConfig) : List CustomEvent :=
  if cfg.custom_events.enabled then cfg.custom_events.events.filter (·.enabled) else []

/-- calculator.py lines 488-499. -/
def get_custom_events_for_age (cfg : SimConfig) (age : Nat) : List CustomEvent :=
  (get_active_custom_events cfg).filter (fun e => e.age = age)

/-- calculator.py lines 501-527: the `\x7bevent_id: monthly_amount\x7d` dict of
per-event saving amounts active at this age. -/
def get_custom_event_saving_for_age (cfg : SimConfig) (age : Nat) : List (Nat × ℚ) :=
  (get_active_custom_events cfg).filterMap (fun e =>
    if e.auto_saving.enabled then
      let sa := e.auto_saving.start_age.getD (e.age - 5)
      if sa ≤ age ∧ age < e.age then some (e.id, e.auto_saving.monthly_amount) else none
    else none)

/-! ## Monthly record (calculator.py lines 529-650) -/

/-- The `income` sub-dict of a monthly record. -/
structure IncomeBreakdown where
  salary_net : ℚ
  bonus_net : ℚ
  spouse_income : ℚ
  pension : ℚ
  child_allowance : ℚ
  housing_allowance : ℚ
  total : ℚ
deriving Repr, DecidableEq

/-- One element of the monthly data list.  The `expenses` and
`investment` dicts keep their string keys; their `"total"` entries are
separate fields.  The `assets` sub-dict of the Python record reads
`assets_previous_month.get("nisa_balance", 0)`: that key never exists in
the driver's asset dict, so the embedded field is the constant 0. -/
structure MonthlyRecord where
  age : Nat
  month : Nat
  year : ℤ
  income : IncomeBreakdown
  expenses : List (String × ℚ)
  expenses_total : ℚ
  investment : List (String × ℚ)
  investment_total : ℚ
  cashflow_monthly : ℚ
  assets_nisa_balance : ℚ
  assets_company_stock_balance : ℚ
  assets_cash_balance : ℚ
  assets_total : ℚ
deriving Repr, DecidableEq

/-- The driver's asset dict (calculator.py lines 667-683).  The dynamic
`custom_event_<id>_fund` keys live in `custom_funds`, keyed by event id. -/
structure Assets where
  nisa_tsumitate_balance : ℚ
  nisa_growth_balance : ℚ
  company_stock_balance : ℚ
  company_stock_shares : ℚ
  education_fund_balance : ℚ
  marriage_fund_balance : ℚ
  taxable_account_balance : ℚ
  cash_balance : ℚ
  total : ℚ
  custom_funds : List (Nat × ℚ)
deriving Repr, DecidableEq

/-- calculator.py lines 529-650. -/
def calculate_monthly_data (cfg : SimConfig) (age month : Nat)
    (assets_previous_month : Assets) : MonthlyRecord :=
  let years_from_start : ℤ := (age : ℤ) - cfg.basic_info.start_age
  let entry := get_salary_for_age cfg.income_progression age
  let base_salary := entry.base_salary
  let bonus_months := entry.bonus_months
  let annual_salary := base_salary * (12 + bonus_months)
  let housing_allowance_monthly := get_housing_allowance_for_age cfg age
  let housing_allowance_annual := housing_allowance_monthly * 12
  let net_annual := calculate_takehome cfg.tax_rates annual_salary housing_allowance_annual
  let monthly_net_salary := net_annual / 12
  let bonus_net :=
    if month = 6 ∨ month = 12 then
      calculate_takehome cfg.tax_rates (base_salary * bonus_months / 2) 0
    else 0
  let spouse_income := get_spouse_income_for_age cfg.basic_info cfg.spouse_income age
  let pension_income := get_pension_for_age cfg.pension age
  let child_allowance := calculate_child_allowance cfg.basic_info cfg.child_allowance age
  let total_income := monthly_net_salary + bonus_net + spouse_income + pension_income +
    child_allowance
  let phase := get_phase_for_age cfg.phase_definitions age
  let housing_costs := get_housing_costs_for_age cfg.housing_costs age
  let rent := housing_costs.rent
  let mortgage := housing_costs.mortgage
  let utilities := housing_costs.utilities
  let monthly_expenses : List (String × ℚ) :=
    match phase with
    | some ph => ph.monthly_expenses.map (fun p =>
        (p.1, apply_inflation cfg.inflation_settings p.2 years_from_start
          cfg.inflation_settings.living_expenses_rate))
    | none => []
  let total_monthly_expenses := dvalsum monthly_expenses + rent + mortgage + utilities
  let monthly_investment : List (String × ℚ) :=
    match phase with
    | some ph => ph.monthly_investment
    | none => []
  let total_monthly_investment := dvalsum monthly_investment
  let bonus_allocation : List (String × ℚ) :=
    match phase with
    | some ph => if month = 6 ∨ month = 12 then
        ph.bonus_allocation.map (fun p => (p.1, p.2 / 2))
      else []
    | none => []
  let total_bonus_allocation := dvalsum bonus_allocation
  let monthly_cashflow := total_income - total_monthly_expenses - total_monthly_investment -
    total_bonus_allocation
  { age := age
    month := month
    year := 2025 + years_from_start
    income :=
      { salary_net := monthly_net_salary
        bonus_net := bonus_net
        spouse_income := spouse_income
        pension := pension_income
        child_allowance := child_allowance
        housing_allowance := if 0 < housing_allowance_monthly then housing_allowance_monthly else 0
        total := total_income }
    expenses := [("housing_rent", rent), ("housing_mortgage", mortgage),
      ("housing_utilities", utilities)] ++ monthly_expenses
    expenses_total := total_monthly_expenses
    investment := dmerge monthly_investment bonus_allocation
    investment_total := total_monthly_investment + total_bonus_allocation
    cashflow_monthly := monthly_cashflow
    assets_nisa_balance := 0
    assets_company_stock_balance := assets_previous_month.company_stock_balance
    assets_cash_balance := assets_previous_month.cash_balance
    assets_total := assets_previous_month.total }

/-! ## Simulation driver state (calculator.py lines 652-701) -/

/-- A `\x7bsource, amount\x7d` pair of an irregular expense. -/
structure PaymentSource where
  source : String
  amount : ℚ
deriving Repr, DecidableEq

/-- An entry of the `irregular_expenses` list of a yearly record.
Custom events additionally carry `category`/`description` keys, which no
computation reads; they are omitted. -/
structure IrregularExpense where
  type : String
  amount : ℚ
  payment_sources : List PaymentSource
deriving Repr, DecidableEq

/-- Sum of the amounts of a payment-source list. -/
def sourcesSum (l : List PaymentSource) : ℚ :=
  (l.map PaymentSource.amount).sum

/-- One entry of the `custom_event_funds` map of a yearly record. -/
structure CustomFundRecord where
  id : Nat
  name : String
  balance : ℚ
  target_amount : ℚ
  target_age : Nat
deriving Repr, DecidableEq

/-- The yearly summary record (calculator.py lines 1124-1145). -/
structure YearlyRecord where
  age : Nat
  year : ℤ
  income_total : ℚ
  expenses_total : ℚ
  investment_total : ℚ
  cashflow_annual : ℚ
  assets_start : ℚ
  assets_end : ℚ
  nisa_tsumitate : ℚ
  nisa_growth : ℚ
  company_stock : ℚ
  education_fund : ℚ
  taxable_account : ℚ
  cash : ℚ
  custom_event_funds : List CustomFundRecord
  education_cost_annual : ℚ
  dividend_total : ℚ
  dividend_received : ℚ
  irregular_expenses : List IrregularExpense
deriving Repr, DecidableEq

/-- The mutable state threaded through `simulate_30_years`: the asset
dict, the two NISA lifetime-contribution counters, the company stock
price, and the two output lists. -/
structure SimState where
  assets : Assets
  nisa_tsumitate_total_contribution : ℚ
  nisa_growth_total_contribution : ℚ
  stock_price : ℚ
  monthly_data : List MonthlyRecord
  yearly_summary : List YearlyRecord
deriving Repr, DecidableEq

/-- Per-year accumulators (calculator.py lines 697-701) plus the copy of
the assets taken at the start of the year. -/
structure YearAcc where
  st : SimState
  yearly_income : ℚ
  yearly_expenses : ℚ
  yearly_investment : ℚ
  yearly_cashflow : ℚ
  year_start_assets : Assets
deriving Repr, DecidableEq

/-- State of one capped NISA bucket family: its lifetime counter, its
own balance and the taxable fallback balance. -/
structure CappedState where
  counter : ℚ
  capped_balance : ℚ
  taxable_balance : ℚ
deriving Repr, DecidableEq

/-- The monthly update of a capped NISA bucket (calculator.py lines
716-728 for the tsumitate family and, identically, lines 731-742 for
the growth family): below the lifetime cap the contribution is clipped
to the remaining headroom and compounded into the capped balance; at or
above the cap the whole contribution is routed to the taxable account
at its own return rate.  The clipped overflow of the crossing month is
not routed anywhere. -/
def cappedBucketUpdate (limit capped_return taxable_return contribution : ℚ)
    (cs : CappedState) : CappedState :=
  if 0 < contribution then
    if cs.counter < limit then
      let c := min contribution (limit - cs.counter)
      { counter := cs.counter + c
        capped_balance := (cs.capped_balance + c) * (1 + capped_return / 12)
        taxable_balance := cs.taxable_balance }
    else
      { cs with taxable_balance := (cs.taxable_balance + contribution) * (1 + taxable_return / 12) }
  else cs

/-- One iteration of the month loop (calculator.py lines 704-794):
computes the monthly record, accumulates the yearly totals and applies
the asset updates. -/
def monthStep (cfg : SimConfig) (age : Nat) (ya : YearAcc) (month : Nat) : YearAcc :=
  let s := ya.st
  let md := calculate_monthly_data cfg age month s.assets
  let a0 := s.assets
  let inv := md.investment
  let nisa := cfg.investment_settings.nisa
  let taxable := cfg.investment_settings.taxable_account
  let edu := cfg.investment_settings.education_fund
  let stock := cfg.investment_settings.company_stock
  let c1 := cappedBucketUpdate nisa.tsumitate_limit nisa.expected_return
      taxable.expected_return (dget inv "nisa_tsumitate")
      ⟨s.nisa_tsumitate_total_contribution, a0.nisa_tsumitate_balance,
        a0.taxable_account_balance⟩
  let c2 := cappedBucketUpdate nisa.growth_limit nisa.expected_return
      taxable.expected_return (dget inv "nisa_growth")
      ⟨s.nisa_growth_total_contribution, a0.nisa_growth_balance, c1.taxable_balance⟩
  let company_stock_contribution := dget inv "company_stock"
  let shares1 :=
    if 0 < company_stock_contribution then
      a0.company_stock_shares +
        company_stock_contribution * (1 + stock.incentive_rate) / s.stock_price
    else a0.company_stock_shares
  let education_contribution := dget inv "education_fund"
  let edu1 :=
    if 0 < education_contribution then
      (a0.education_fund_balance + education_contribution) * (1 + edu.expected_return / 12)
    else a0.education_fund_balance
  let marriage_contribution := dget inv "marriage_fund"
  let mar1 :=
    if 0 < marriage_contribution then
      (a0.marriage_fund_balance + marriage_contribution) * (1 + edu.expected_return / 12)
    else a0.marriage_fund_balance
  let child_prep_contribution := dget inv "child_preparation_fund"
  let cash1 := a0.cash_balance + (if 0 < child_prep_contribution then child_prep_contribution else 0)
  let emergency_contribution := dget inv "emergency_fund"
  let cash2 := cash1 + (if 0 < emergency_contribution then emergency_contribution else 0)
  let high_dividend_contribution := dget inv "high_dividend_stocks"
  let tax3 :=
    if 0 < high_dividend_contribution then
      (c2.taxable_balance + high_dividend_contribution) * (1 + taxable.expected_return / 12)
    else c2.taxable_balance
  let event_savings := get_custom_event_saving_for_age cfg age
  let funds1 := event_savings.foldl
    (fun fl p => if amem fl p.1 then aset fl p.1 (aget fl p.1 + p.2) else fl)
    a0.custom_funds
  let cash3 := cash2 + md.cashflow_monthly
  let total_event_saving := (event_savings.map Prod.snd).sum
  let cash4 := cash3 - total_event_saving
  { st :=
      { assets :=
          { a0 with
            nisa_tsumitate_balance := c1.capped_balance
            nisa_growth_balance := c2.capped_balance
            taxable_account_balance := tax3
            company_stock_shares := shares1
            education_fund_balance := edu1
            marriage_fund_balance := mar1
            cash_balance := cash4
            custom_funds := funds1 }
        nisa_tsumitate_total_contribution := c1.counter
        nisa_growth_total_contribution := c2.counter
        stock_price := s.stock_price
        monthly_data := s.monthly_data ++ [md]
        yearly_summary := s.yearly_summary }
    yearly_income := ya.yearly_income + md.income.total
    yearly_expenses := ya.yearly_expenses + md.expenses_total
    yearly_investment := ya.yearly_investment + md.investment_total
    yearly_cashflow := ya.yearly_cashflow + md.cashflow_monthly
    year_start_assets := ya.year_start_assets }

/-! ## Year-end processing blocks (calculator.py lines 796-1097)

Each block of the straight-line year-end section of
`simulate_30_years` is factored into one function; `yearEndStep`
below is the direct transcription of the whole section and is proved
equal to their composition. -/

/-- Education cost of one child for the year (calculator.py lines
804-826 and, identically, 829-844); `child_age` is the signed
difference `age - birth_age`. -/
def childEducationCost (cfg : SimConfig) (child_age : ℤ) : ℚ :=
  let ec := cfg.education_costs
  if 0 ≤ child_age ∧ child_age ≤ 22 then
    if child_age ≤ 5 then ec.age_0_5_childcare
    else if child_age ≤ 11 then ec.age_6_11_school_fees + ec.age_6_11_lessons
    else if child_age ≤ 14 then ec.age_12_14_school_fees + ec.age_12_14_cram_school
    else if child_age ≤ 17 then
      ec.age_15_17_school_fees + ec.age_15_17_cram_school - cfg.high_school_subsidy
    else if child_age = 18 then ec.age_18_exam_fees
    else 0
  else 0

/-- School-age education costs paid from cash (calculator.py lines
800-851); returns the updated assets and `adjusted_cost`. -/
def educationCostStep (cfg : SimConfig) (age : Nat) (a : Assets) : Assets × ℚ :=
  let first_child_age := (age : ℤ) - cfg.basic_info.first_child_birth_age
  let second_child_age := (age : ℤ) - cfg.basic_info.second_child_birth_age
  let annual_education_cost :=
    childEducationCost cfg first_child_age + childEducationCost cfg second_child_age
  if 0 < annual_education_cost then
    let adjusted_cost := apply_inflation cfg.inflation_settings annual_education_cost
      ((age : ℤ) - cfg.basic_info.start_age) cfg.inflation_settings.education_rate
    ({ a with cash_balance := a.cash_balance - adjusted_cost }, adjusted_cost)
  else (a, 0)

/-- Settlement of one custom purchase event (calculator.py lines
855-898): pay from the dedicated fund, then take any shortfall from
cash unconditionally. -/
def processCustomEvent (a : Assets) (e : CustomEvent) : Assets × IrregularExpense :=
  let fund_balance := aget a.custom_funds e.id
  if e.amount ≤ fund_balance then
    ({ a with custom_funds := aset a.custom_funds e.id (fund_balance - e.amount) },
     { type := e.name, amount := e.amount,
       payment_sources := [⟨e.name ++ "用貯金", e.amount⟩] })
  else
    let shortfall := e.amount - fund_balance
    ({ a with
        custom_funds := if 0 < fund_balance then aset a.custom_funds e.id 0 else a.custom_funds
        cash_balance := a.cash_balance - shortfall },
     { type := e.name, amount := e.amount,
       payment_sources :=
         (if 0 < fund_balance then [⟨e.name ++ "用貯金", fund_balance⟩] else []) ++
         [⟨"現金", shortfall⟩] })

/-- All custom events of this age, in table order (calculator.py lines
853-898). -/
def customEventsStep (cfg : SimConfig) (age : Nat) (a : Assets) :
    Assets × List IrregularExpense :=
  (get_custom_events_for_age cfg age).foldl
    (fun acc e =>
      let r := processCustomEvent acc.1 e
      (r.1, acc.2 ++ [r.2]))
    (a, [])

/-- Share-price growth, dividend split and reinvestment (calculator.py
lines 900-932); returns the new stock price, the updated assets, the
annual dividend total and the cash-distributed part. -/
def stockDividendStep (cfg : SimConfig) (age : Nat) (stock_price : ℚ) (a : Assets) :
    ℚ × Assets × ℚ × ℚ :=
  let stock := cfg.investment_settings.company_stock
  let price1 := stock_price * (1 + stock.price_growth_rate)
  let a1 := { a with company_stock_balance := a.company_stock_shares * price1 }
  if 0 < a1.company_stock_balance then
    let annual_dividend := a1.company_stock_balance * stock.dividend_yield
    let dr := cfg.investment_settings.dividend_reinvestment
    let reinvest_rate :=
      if age ≤ 45 then dr.age_0_45
      else if age ≤ 55 then dr.age_46_55
      else if age ≤ 64 then dr.age_56_64
      else dr.age_65_99
    let reinvest_amount := annual_dividend * reinvest_rate
    let cash_dividend := annual_dividend - reinvest_amount
    let a2 :=
      if 0 < reinvest_amount then
        let shares2 := a1.company_stock_shares + reinvest_amount / price1
        { a1 with company_stock_shares := shares2, company_stock_balance := shares2 * price1 }
      else a1
    (price1, { a2 with cash_balance := a2.cash_balance + cash_dividend },
      annual_dividend, cash_dividend)
  else (price1, a1, 0, 0)

/-- Marriage event settlement (calculator.py lines 934-958). -/
def marriageStep (cfg : SimConfig) (age : Nat) (a : Assets) :
    Assets × List IrregularExpense :=
  if age = cfg.life_events.marriage.age then
    let marriage_cost := cfg.life_events.marriage.cost
    if marriage_cost ≤ a.marriage_fund_balance then
      ({ a with marriage_fund_balance := a.marriage_fund_balance - marriage_cost },
       [{ type := "結婚式・新婚旅行", amount := marriage_cost,
          payment_sources := [⟨"結婚資金", marriage_cost⟩] }])
    else
      let marriage_fund_used := a.marriage_fund_balance
      let shortfall := marriage_cost - a.marriage_fund_balance
      ({ a with marriage_fund_balance := 0, cash_balance := a.cash_balance - shortfall },
       [{ type := "結婚式・新婚旅行", amount := marriage_cost,
          payment_sources :=
            (if 0 < marriage_fund_used then [⟨"結婚資金", marriage_fund_used⟩] else []) ++
            [⟨"現金", shortfall⟩] }])
  else (a, [])

/-- The two home-purchase records over one shared payment-source list,
split in half by element count (calculator.py lines 1001-1010). -/
def homePurchaseRecords (down_payment closing_costs : ℚ) (ps : List PaymentSource) :
    List IrregularExpense :=
  [{ type := "住宅購入（頭金）", amount := down_payment,
     payment_sources := if 1 < ps.length then ps.take (ps.length / 2) else ps },
   { type := "住宅購入（諸費用）", amount := closing_costs,
     payment_sources := if 1 < ps.length then ps.drop (ps.length / 2) else [] }]

/-- Home-purchase settlement waterfall: cash, then education fund, then
NISA growth, silently under-funding if all three run out
(calculator.py lines 960-1010). -/
def homePurchaseStep (cfg : SimConfig) (age : Nat) (a : Assets) :
    Assets × List IrregularExpense :=
  if age = cfg.life_events.home_purchase.age then
    let down_payment := cfg.life_events.home_purchase.down_payment
    let closing_costs := cfg.life_events.home_purchase.closing_costs
    let total_upfront := down_payment + closing_costs
    if total_upfront ≤ a.cash_balance then
      ({ a with cash_balance := a.cash_balance - total_upfront },
       homePurchaseRecords down_payment closing_costs [⟨"現金", total_upfront⟩])
    else
      let cash_used := a.cash_balance
      let shortfall := total_upfront - a.cash_balance
      let ps0 := if 0 < cash_used then [PaymentSource.mk "現金" cash_used] else []
      let a1 := { a with cash_balance := 0 }
      if shortfall ≤ a1.education_fund_balance then
        ({ a1 with education_fund_balance := a1.education_fund_balance - shortfall },
         homePurchaseRecords down_payment closing_costs (ps0 ++ [⟨"教育資金", shortfall⟩]))
      else
        let education_fund_used := a1.education_fund_balance
        let remaining_shortfall := shortfall - a1.education_fund_balance
        let ps1 := ps0 ++
          (if 0 < education_fund_used then [PaymentSource.mk "教育資金" education_fund_used] else [])
        let a2 := { a1 with education_fund_balance := 0 }
        if remaining_shortfall ≤ a2.nisa_growth_balance then
          ({ a2 with nisa_growth_balance := a2.nisa_growth_balance - remaining_shortfall },
           homePurchaseRecords down_payment closing_costs (ps1 ++ [⟨"NISA成長", remaining_shortfall⟩]))
        else
          let nisa_used := a2.nisa_growth_balance
          ({ a2 with nisa_growth_balance := max 0 (a2.nisa_growth_balance - remaining_shortfall) },
           homePurchaseRecords down_payment closing_costs
             (ps1 ++ (if 0 < nisa_used then [PaymentSource.mk "NISA成長" nisa_used] else [])))
  else (a, [])

/-- One university-cost line of the `university_details` list. -/
structure UniversityDetail where
  child : String
  age : ℤ
  amount : ℚ
deriving Repr, DecidableEq

/-- The `university_details` list (calculator.py lines 1017-1042): one
line per child aged 19-22, each with the annual tuition plus living
cost (5,500,000/4 + 4,560,000/4). -/
def universityDetails (cfg : SimConfig) (age : Nat) : List UniversityDetail :=
  let first_child_age := (age : ℤ) - cfg.basic_info.first_child_birth_age
  let second_child_age := (age : ℤ) - cfg.basic_info.second_child_birth_age
  let annual_tuition : ℚ := 5500000 / 4
  let annual_living : ℚ := 4560000 / 4
  (if 19 ≤ first_child_age ∧ first_child_age ≤ 22 then
    [⟨"第一子", first_child_age, annual_tuition + annual_living⟩] else []) ++
  (if 19 ≤ second_child_age ∧ second_child_age ≤ 22 then
    [⟨"第二子", second_child_age, annual_tuition + annual_living⟩] else [])

/-- University costs for children aged 19-22, paid from the education
fund with shortfall from cash, recorded per child with proportionally
scaled sources (calculator.py lines 1012-1077); returns the updated
assets, the records and the year's university cost. -/
def universityStep (cfg : SimConfig) (age : Nat) (a : Assets) :
    Assets × List IrregularExpense × ℚ :=
  let details := universityDetails cfg age
  let university_cost_this_year := (details.map UniversityDetail.amount).sum
  if 0 < university_cost_this_year then
    let r :=
      if university_cost_this_year ≤ a.education_fund_balance then
        ({ a with education_fund_balance := a.education_fund_balance - university_cost_this_year },
         [PaymentSource.mk "教育資金" university_cost_this_year])
      else
        let education_fund_used := a.education_fund_balance
        let shortfall := university_cost_this_year - a.education_fund_balance
        ({ a with education_fund_balance := 0, cash_balance := a.cash_balance - shortfall },
         (if 0 < education_fund_used then [PaymentSource.mk "教育資金" education_fund_used] else []) ++
         [PaymentSource.mk "現金" shortfall])
    let recs := details.map (fun d =>
      { type := "大学費用（" ++ d.child ++ " " ++ toString d.age ++ "歳）"
        amount := d.amount
        payment_sources := r.2.map (fun ps =>
          ⟨ps.source, ps.amount * (d.amount / university_cost_this_year)⟩) })
    (r.1, recs, university_cost_this_year)
  else (a, [], 0)

/-- Retirement lump sum and corporate pension credited to cash
(calculator.py lines 1079-1097). -/
def retirementStep (cfg : SimConfig) (age : Nat) (a : Assets) :
    Assets × List IrregularExpense :=
  let rb := get_retirement_benefit cfg age
  let a1 :=
    if 0 < rb.lump_sum_net then
      { a with cash_balance := a.cash_balance + rb.lump_sum_net }
    else a
  let recs :=
    if 0 < rb.lump_sum_net then
      [{ type := "退職金（一時金・税引後）", amount := -rb.lump_sum_net,
         payment_sources := [⟨"退職金", rb.lump_sum_net⟩] }]
    else ([] : List IrregularExpense)
  let a2 :=
    if 0 < rb.corporate_pension then
      { a1 with cash_balance := a1.cash_balance + rb.corporate_pension * 12 }
    else a1
  (a2, recs)

/-- Sum of the named balances of the asset dict (calculator.py lines
1099-1111): the seven fixed buckets plus the per-event custom funds;
this is the expression assigned to `assets["total"]` at each year end. -/
def namedSum (cfg : SimConfig) (a : Assets) : ℚ :=
  a.nisa_tsumitate_balance + a.nisa_growth_balance + a.company_stock_balance +
  a.education_fund_balance + a.marriage_fund_balance + a.taxable_account_balance +
  a.cash_balance +
  ((get_active_custom_events cfg).map (fun e => aget a.custom_funds e.id)).sum

/-- The `custom_event_funds` map of the yearly record (calculator.py
lines 1113-1122). -/
def customFundRecords (cfg : SimConfig) (a : Assets) : List CustomFundRecord :=
  (get_active_custom_events cfg).map (fun e =>
    { id := e.id, name := e.name, balance := aget a.custom_funds e.id,
      target_amount := e.amount, target_age := e.age })

/-- The complete year-end section of `simulate_30_years`
(calculator.py lines 796-1145), executed in source order: education
costs, custom events, stock price/dividends, marriage, home purchase,
university costs, retirement benefit, then the recomputed total and the
yearly record.  Returns the new driver state (with the record appended)
together with the record. -/
def yearEndStep (cfg : SimConfig) (age : Nat) (ya : YearAcc) : SimState × YearlyRecord :=
  let s := ya.st
  let e1 := educationCostStep cfg age s.assets
  let e2 := customEventsStep cfg age e1.1
  let e3 := stockDividendStep cfg age s.stock_price e2.1
  let e4 := marriageStep cfg age e3.2.1
  let e5 := homePurchaseStep cfg age e4.1
  let e6 := universityStep cfg age e5.1
  let e7 := retirementStep cfg age e6.1
  let adjusted_cost := e1.2 + e6.2.2
  let aT := { e7.1 with total := namedSum cfg e7.1 }
  let record : YearlyRecord :=
    { age := age
      year := 2025 + ((age : ℤ) - cfg.basic_info.start_age)
      income_total := ya.yearly_income
      expenses_total := ya.yearly_expenses
      investment_total := ya.yearly_investment
      cashflow_annual := ya.yearly_cashflow
      assets_start := ya.year_start_assets.total
      assets_end := aT.total
      nisa_tsumitate := aT.nisa_tsumitate_balance
      nisa_growth := aT.nisa_growth_balance
      company_stock := aT.company_stock_balance
      education_fund := aT.education_fund_balance
      taxable_account := aT.taxable_account_balance
      cash := aT.cash_balance
      custom_event_funds := customFundRecords cfg aT
      education_cost_annual := adjusted_cost
      dividend_total := e3.2.2.1
      dividend_received := e3.2.2.2
      irregular_expenses := e2.2 ++ e4.2 ++ e5.2 ++ e6.2.1 ++ e7.2 }
  ({ s with
      assets := aT
      stock_price := e3.1
      yearly_summary := s.yearly_summary ++ [record] },
   record)

/-- Modelled from the spec: the year-end order stated in §4.7
("education costs → equity price/dividend update → marriage event →
home-purchase event → custom events → retirement-benefit event if
applicable"), built from the same blocks as `yearEndStep`.  University
costs, which the spec's order list does not mention, keep their source
position (after the home purchase); the record list keeps the source
concatenation order so that only the processing order differs.  Used
only to compare the claimed order against the source order. -/
def specOrderYearEnd (cfg : SimConfig) (age : Nat) (ya : YearAcc) : SimState × YearlyRecord :=
  let s := ya.st
  let e1 := educationCostStep cfg age s.assets
  let e3 := stockDividendStep cfg age s.stock_price e1.1
  let e4 := marriageStep cfg age e3.2.1
  let e5 := homePurchaseStep cfg age e4.1
  let e6 := universityStep cfg age e5.1
  let e2 := customEventsStep cfg age e6.1
  let e7 := retirementStep cfg age e2.1
  let adjusted_cost := e1.2 + e6.2.2
  let aT := { e7.1 with total := namedSum cfg e7.1 }
  let record : YearlyRecord :=
    { age := age
      year := 2025 + ((age : ℤ) - cfg.basic_info.start_age)
      income_total := ya.yearly_income
      expenses_total := ya.yearly_expenses
      investment_total := ya.yearly_investment
      cashflow_annual := ya.yearly_cashflow
      assets_start := ya.year_start_assets.total
      assets_end := aT.total
      nisa_tsumitate := aT.nisa_tsumitate_balance
      nisa_growth := aT.nisa_growth_balance
      company_stock := aT.company_stock_balance
      education_fund := aT.education_fund_balance
      taxable_account := aT.taxable_account_balance
      cash := aT.cash_balance
      custom_event_funds := customFundRecords cfg aT
      education_cost_annual := adjusted_cost
      dividend_total := e3.2.2.1
      dividend_received := e3.2.2.2
      irregular_expenses := e2.2 ++ e4.2 ++ e5.2 ++ e6.2.1 ++ e7.2 }
  ({ s with
      assets := aT
      stock_price := e3.1
      yearly_summary := s.yearly_summary ++ [record] },
   record)

/-! ## The driver loop (calculator.py lines 652-1150) -/

/-- Python `range(1, 13)`. -/
def monthsList : List Nat := List.range' 1 12

/-- Python `range(start_age, end_age + 1)`. -/
def agesList (cfg : SimConfig) : List Nat :=
  List.range' cfg.basic_info.start_age (cfg.basic_info.end_age + 1 - cfg.basic_info.start_age)

/-- The initial asset dict (calculator.py lines 667-683): every balance
zero, one zero custom fund per active event. -/
def initAssets (cfg : SimConfig) : Assets :=
  { nisa_tsumitate_balance := 0
    nisa_growth_balance := 0
    company_stock_balance := 0
    company_stock_shares := 0
    education_fund_balance := 0
    marriage_fund_balance := 0
    taxable_account_balance := 0
    cash_balance := 0
    total := 0
    custom_funds := (get_active_custom_events cfg).map (fun e => (e.id, 0)) }

/-- The initial driver state (calculator.py lines 663-693). -/
def initState (cfg : SimConfig) : SimState :=
  { assets := initAssets cfg
    nisa_tsumitate_total_contribution := 0
    nisa_growth_total_contribution := 0
    stock_price := cfg.investment_settings.company_stock.initial_price
    monthly_data := []
    yearly_summary := [] }

/-- The fresh per-year accumulator at the start of an age iteration
(calculator.py lines 697-701). -/
def initYearAcc (s : SimState) : YearAcc :=
  { st := s, yearly_income := 0, yearly_expenses := 0, yearly_investment := 0,
    yearly_cashflow := 0, year_start_assets := s.assets }

/-- One age iteration: the twelve month steps followed by the year-end
section. -/
def yearStep (cfg : SimConfig) (age : Nat) (s : SimState) : SimState × YearlyRecord :=
  yearEndStep cfg age (monthsList.foldl (monthStep cfg age) (initYearAcc s))

/-- calculator.py lines 652-1150: the full simulation, returning the
monthly data list and the yearly summary list. -/
def simulate_30_years (cfg : SimConfig) : List MonthlyRecord × List YearlyRecord :=
  let final := (agesList cfg).foldl (fun s a => (yearStep cfg a s).1) (initState cfg)
  (final.monthly_data, final.yearly_summary)

/-- Each yearly record paired with the ledger at the moment the record
was produced (the assets of the state returned by its `yearStep`). -/
def yearPairs (cfg : SimConfig) : List Nat → SimState → List (Assets × YearlyRecord)
  | [], _ => []
  | a :: rest, s =>
    let r := yearStep cfg a s
    (r.1.assets, r.2) :: yearPairs cfg rest r.1

/-- The driver states after every month step and after the year-end
settlement of a single age iteration. -/
def yearTrace (cfg : SimConfig) (age : Nat) (s : SimState) : List SimState :=
  (foldTrace (monthStep cfg age) (initYearAcc s) monthsList).map YearAcc.st ++
  [(yearStep cfg age s).1]

/-- The driver states after every month step and every year-end
settlement over a list of ages. -/
def runTrace (cfg : SimConfig) : List Nat → SimState → List SimState
  | [], _ => []
  | a :: rest, s => yearTrace cfg a s ++ runTrace cfg rest (yearStep cfg a s).1

/-- All intermediate driver states of the full simulation. -/
def simTrace (cfg : SimConfig) : List SimState :=
  runTrace cfg (agesList cfg) (initState cfg)

/-! ## Concrete configurations used by witnesses and counterexamples -/

/-- A minimal one-year configuration: one simulated age (30), no
income, a single phase with 10 units of monthly living expenses, no
investment, all rates zero, every optional feature disabled. -/
def cfgBase : SimConfig :=
  { basic_info :=
      { start_age := 30, end_age := 30, birth_month := 1, marriage_age := 99,
        first_child_birth_age := 99, second_child_birth_age := 99 }
    life_events :=
      { marriage := { age := 999, cost := 0 }
        home_purchase := { age := 999, down_payment := 0, closing_costs := 0 } }
    income_progression := [(30, { base_salary := 0, bonus_months := 0 })]
    investment_settings :=
      { nisa := { tsumitate_limit := 1000000, growth_limit := 1000000, expected_return := 0 }
        taxable_account := { expected_return := 0 }
        education_fund := { expected_return := 0 }
        company_stock :=
          { initial_price := 1, price_growth_rate := 0, dividend_yield := 0, incentive_rate := 0 }
        dividend_reinvestment := { age_0_45 := 0, age_46_55 := 0, age_56_64 := 0, age_65_99 := 0 } }
    tax_rates :=
      { social_insurance_detailed :=
          { enabled := false
            health_insurance := { max_monthly_salary := 0, rate := 0 }
            employee_pension := { max_monthly_salary := 0, rate := 0, employee_share := 0 }
            employment_insurance := { rate := 0 } }
        social_insurance_rate := 0
        income_tax_rates := { band1 := 2/10, band2 := 3/10, band3 := 4/10, band4 := 5/10 } }
    inflation_settings := { enabled := false, living_expenses_rate := 0, education_rate := 0 }
    spouse_income := { band_28_47 := 0, band_48_64 := 0, band_65_99 := 0 }
    pension :=
      { monthly_amount := 0, spouse_monthly_amount := 0, start_age := 99
        deferral_options := { enabled := false, monthly_rate := 0 } }
    housing_allowance_45_49 := 0
    housing_costs :=
      { band_25_27 := { rent := 0, mortgage := 0, utilities := 0 }
        band_28_49 := { rent := 0, mortgage := 0, utilities := 0 }
        band_50_55 := { rent := 0, mortgage := 0, utilities := 0 } }
    phase_definitions :=
      [{ ages_start := 0, ages_end := 120, monthly_expenses := [("living", 10)],
         monthly_investment := [], bonus_allocation := [] }]
    child_allowance := { age_0_2 := 0, age_3_14 := 0, age_3_14_second_child := 0 }
    education_costs :=
      { age_0_5_childcare := 0, age_6_11_school_fees := 0, age_6_11_lessons := 0,
        age_12_14_school_fees := 0, age_12_14_cram_school := 0, age_15_17_school_fees := 0,
        age_15_17_cram_school := 0, age_18_exam_fees := 0 }
    high_school_subsidy := 0
    retirement_benefit :=
      { enabled := false, lump_sum := 0, years_of_service := 0
        corporate_pension := { enabled := false, start_age := 0, years := 0, monthly_amount := 0 } }
    custom_events := { enabled := false, events := [] } }

/-- `cfgBase` with 100 units of monthly expenses and a planned NISA
tsumitate contribution of 50 per month. -/
def cfgShortfall : SimConfig :=
  { cfgBase with
    phase_definitions :=
      [{ ages_start := 0, ages_end := 120, monthly_expenses := [("living", 100)],
         monthly_investment := [("nisa_tsumitate", 50)], bonus_allocation := [] }] }

/-- `cfgBase` with a home purchase (down payment 3,000,000, closing
costs 1,000,000) at age 30. -/
def cfgHome : SimConfig :=
  { cfgBase with
    life_events :=
      { marriage := { age := 999, cost := 0 }
        home_purchase := { age := 30, down_payment := 3000000, closing_costs := 1000000 } } }

/-- The custom purchase event used by `cfgOrder` and by the waterfall
witness. -/
def eOrder : CustomEvent :=
  { id := 1, enabled := true, age := 30, amount := 4000000, name := "車",
    auto_saving := { enabled := false, start_age := none, monthly_amount := 0 } }

/-- `cfgBase` with a home purchase (2,000,000 + 500,000) and a custom
purchase event of 4,000,000, both at age 30. -/
def cfgOrder : SimConfig :=
  { cfgBase with
    life_events :=
      { marriage := { age := 999, cost := 0 }
        home_purchase := { age := 30, down_payment := 2000000, closing_costs := 500000 } }
    custom_events := { enabled := true, events := [eOrder] } }

/-- `cfgBase` with a salary anchor of 400,000 per month and four bonus
months. -/
def cfgBonus : SimConfig :=
  { cfgBase with
    income_progression := [(30, { base_salary := 400000, bonus_months := 4 })] }

/-- A driver state with 5,000,000 cash, a 10,000,000 education fund and
the custom fund of event 1 at zero, as the year-end input of the
order counterexample. -/
def stOrder : SimState :=
  { assets :=
      { nisa_tsumitate_balance := 0, nisa_growth_balance := 0, company_stock_balance := 0,
        company_stock_shares := 0, education_fund_balance := 10000000,
        marriage_fund_balance := 0, taxable_account_balance := 0, cash_balance := 5000000,
        total := 0, custom_funds := [(1, 0)] }
    nisa_tsumitate_total_contribution := 0
    nisa_growth_total_contribution := 0
    stock_price := 1
    monthly_data := []
    yearly_summary := [] }

/-- An asset dict with 10,000,000 cash and nothing else, input of the
waterfall counterexample. -/
def assetsCash10M : Assets :=
  { nisa_tsumitate_balance := 0, nisa_growth_balance := 0, company_stock_balance := 0,
    company_stock_shares := 0, education_fund_balance := 0, marriage_fund_balance := 0,
    taxable_account_balance := 0, cash_balance := 10000000, total := 0, custom_funds := [] }

/-! ## Invariant predicates -/

/-- Both NISA lifetime-contribution counters are within their caps. -/
def CapOK (cfg : SimConfig) (s : SimState) : Prop :=
  s.nisa_tsumitate_total_contribution ≤ cfg.investment_settings.nisa.tsumitate_limit ∧
  s.nisa_growth_total_contribution ≤ cfg.investment_settings.nisa.growth_limit

/-- Every named balance of the asset dict other than cash is
non-negative (shares included). -/
def AssetsNonNeg (a : Assets) : Prop :=
  0 ≤ a.nisa_tsumitate_balance ∧ 0 ≤ a.nisa_growth_balance ∧
  0 ≤ a.company_stock_balance ∧ 0 ≤ a.company_stock_shares ∧
  0 ≤ a.education_fund_balance ∧ 0 ≤ a.marriage_fund_balance ∧
  0 ≤ a.taxable_account_balance ∧ ∀ p ∈ a.custom_funds, 0 ≤ p.2

/-- Driver-state invariant: all non-cash balances are non-negative and
the stock price is positive. -/
def NonNegOK (s : SimState) : Prop :=
  AssetsNonNeg s.assets ∧ 0 < s.stock_price

/-- Sanity conditions on the configuration under which the non-cash
balances stay non-negative: planned contributions and saving amounts
are non-negative, annual returns are above -1200 %, the stock incentive
is above -100 %, the initial stock price is positive, the stock growth
rate is above -100 %, and dividend yield and reinvestment rates are
non-negative. -/
def ConfigNonNeg (cfg : SimConfig) : Prop :=
  (∀ ph ∈ cfg.phase_definitions,
    (∀ p ∈ ph.monthly_investment, 0 ≤ p.2) ∧ (∀ p ∈ ph.bonus_allocation, 0 ≤ p.2)) ∧
  (∀ e ∈ cfg.custom_events.events, 0 ≤ e.auto_saving.monthly_amount) ∧
  -12 ≤ cfg.investment_settings.nisa.expected_return ∧
  -12 ≤ cfg.investment_settings.taxable_account.expected_return ∧
  -12 ≤ cfg.investment_settings.education_fund.expected_return ∧
  -1 ≤ cfg.investment_settings.company_stock.incentive_rate ∧
  0 < cfg.investment_settings.company_stock.initial_price ∧
  -1 < cfg.investment_settings.company_stock.price_growth_rate ∧
  0 ≤ cfg.investment_settings.company_stock.dividend_yield ∧
  0 ≤ cfg.investment_settings.dividend_reinvestment.age_0_45 ∧
  0 ≤ cfg.investment_settings.dividend_reinvestment.age_46_55 ∧
  0 ≤ cfg.investment_settings.dividend_reinvestment.age_56_64 ∧
  0 ≤ cfg.investment_settings.dividend_reinvestment.age_65_99

/-- Iterated monthly updates of one capped NISA bucket, one request per
month (the per-month update is `cappedBucketUpdate`, the function the
driver applies at calculator.py lines 714-742). -/
def cappedRun (limit capped_return taxable_return : ℚ) (reqs : List ℚ)
    (cs : CappedState) : CappedState :=
  reqs.foldl (fun s c => cappedBucketUpdate limit capped_return taxable_return c s) cs

/-- Two asset dicts that agree on every field except possibly the cash
balance and the custom funds.  The year-end blocks other than the
custom-events and home-purchase blocks read only these shared fields,
which is what makes the custom-events block commute past them. -/
def agreeExceptCashFunds (a b : Assets) : Prop :=
  a.nisa_tsumitate_balance = b.nisa_tsumitate_balance ∧
  a.nisa_growth_balance = b.nisa_growth_balance ∧
  a.company_stock_balance = b.company_stock_balance ∧
  a.company_stock_shares = b.company_stock_shares ∧
  a.education_fund_balance = b.education_fund_balance ∧
  a.marriage_fund_balance = b.marriage_fund_balance ∧
  a.taxable_account_balance = b.taxable_account_balance ∧
  a.total = b.total

attribute [ext] PaymentSource IrregularExpense Assets SimState YearlyRecord

/-! ## General fold lemmas -/

theorem foldTrace_all {P : α → Prop} (f : α → β → α)
    (hstep : ∀ a b, P a → P (f a b)) :
    ∀ (l : List β) (a : α), P a → ∀ x ∈ foldTrace f a l, P x := by
  intro l
  induction l with
  | nil => intro a _ x hx; simp [foldTrace] at hx
  | cons b bs ih =>
    intro a ha x hx
    simp only [foldTrace, List.mem_cons] at hx
    rcases hx with rfl | hx
    · exact hstep a b ha
    · exact ih (f a b) (hstep a b ha) x hx

theorem foldl_preserves {P : α → Prop} (f : α → β → α)
    (hstep : ∀ a b, P a → P (f a b)) :
    ∀ (l : List β) (a : α), P a → P (l.foldl f a) := by
  intro l
  induction l with
  | nil => intro a ha; simpa using ha
  | cons b bs ih => intro a ha; exact ih (f a b) (hstep a b ha)

/-! ## Generic trace preservation -/

/-- An invariant preserved by every month step and every year-end step
holds at every state of the run trace. -/
theorem runTrace_all {P : SimState → Prop} (cfg : SimConfig)
    (hm : ∀ age ya month, P ya.st → P (monthStep cfg age ya month).st)
    (hy : ∀ age ya, P ya.st → P (yearEndStep cfg age ya).1) :
    ∀ (ages : List Nat) (s : SimState), P s → ∀ x ∈ runTrace cfg ages s, P x := by
  intro ages
  induction ages with
  | nil => intro s _ x hx; simp [runTrace] at hx
  | cons a t ih =>
    intro s hs x hx
    have hfold : ∀ l : List Nat, P (l.foldl (monthStep cfg a) (initYearAcc s)).st :=
      fun l => foldl_preserves (P := fun ya => P ya.st) (monthStep cfg a)
        (fun acc m hacc => hm a acc m hacc) l (initYearAcc s) hs
    simp only [runTrace, List.mem_append] at hx
    rcases hx with hx | hx
    · simp only [yearTrace, List.mem_append, List.mem_map, List.mem_singleton] at hx
      rcases hx with ⟨ya, hya, rfl⟩ | rfl
      · exact foldTrace_all (f := monthStep cfg a) (P := fun ya => P ya.st)
          (fun acc m hacc => hm a acc m hacc) monthsList (initYearAcc s) hs ya hya
      · exact hy a _ (hfold monthsList)
    · exact ih (yearStep cfg a s).1 (hy a _ (hfold monthsList)) x hx

/-! ## C10: spousal income before the marriage age -/

/-- C10: for every age strictly below the configured marriage age,
`get_spouse_income_for_age` returns exactly 0, whatever the
spouse-income table contains; spousal income can first appear at the
marriage age. -/
theorem spouse_income_zero_before_marriage (basic : BasicInfo) (spouse : SpouseIncome)
    (age : Nat) (h : age < basic.marriage_age) :
    get_spouse_income_for_age basic spouse age = 0 := by
  simp [get_spouse_income_for_age, h]

theorem spouse_income_zero_before_marriage_witness :
    25 < cfgBase.basic_info.marriage_age ∧
    get_spouse_income_for_age cfgBase.basic_info
      { band_28_47 := 7, band_48_64 := 8, band_65_99 := 9 } 25 = 0 :=
  ⟨by decide,
   spouse_income_zero_before_marriage cfgBase.basic_info
     { band_28_47 := 7, band_48_64 := 8, band_65_99 := 9 } 25 (by decide)⟩

/-! ## C9: salary-anchor resolution -/

theorem anchorLoop_of_all_gt (age : Nat) :
    ∀ (l : List Nat) (acc : Nat), (∀ b ∈ l, age < b) → anchorLoop age l acc = acc := by
  intro l
  induction l with
  | nil => intro acc _; rfl
  | cons a t ih =>
    intro acc h
    have ha : ¬ a ≤ age := not_le.mpr (h a (List.mem_cons_self a t))
    simp [anchorLoop, ha]

theorem anchorLoop_max (age : Nat) :
    ∀ (l : List Nat), List.Sorted (· ≤ ·) l → ∀ acc, (∃ a ∈ l, a ≤ age) →
      anchorLoop age l acc ∈ l ∧ anchorLoop age l acc ≤ age ∧
      ∀ b ∈ l, b ≤ age → b ≤ anchorLoop age l acc := by
  intro l
  induction l with
  | nil => intro _ acc h; simp at h
  | cons a t ih =>
    intro hs acc hex
    have hall : ∀ b ∈ t, a ≤ b := (List.sorted_cons.mp hs).1
    have hst : List.Sorted (· ≤ ·) t := (List.sorted_cons.mp hs).2
    by_cases ha : a ≤ age
    · have hloop : anchorLoop age (a :: t) acc = anchorLoop age t a := by
        simp [anchorLoop, ha]
      rw [hloop]
      by_cases hext : ∃ b ∈ t, b ≤ age
      · obtain ⟨r1, r2, r3⟩ := ih hst a hext
        refine ⟨List.mem_cons_of_mem _ r1, r2, ?_⟩
        intro b hb hble
        rcases List.mem_cons.mp hb with rfl | hbt
        · exact hall _ r1
        · exact r3 b hbt hble
      · have h0 : ∀ b ∈ t, age < b := by
          intro b hb
          by_contra hcon
          exact hext ⟨b, hb, not_lt.mp hcon⟩
        rw [anchorLoop_of_all_gt age t a h0]
        refine ⟨List.mem_cons_self a t, ha, ?_⟩
        intro b hb hble
        rcases List.mem_cons.mp hb with rfl | hbt
        · exact le_refl b
        · exact absurd hble (not_le.mpr (h0 b hbt))
    · exfalso
      obtain ⟨b, hb, hble⟩ := hex
      rcases List.mem_cons.mp hb with rfl | hbt
      · exact ha hble
      · exact ha (le_trans (hall b hbt) hble)

/-- C9: for a non-empty income-anchor table, `get_salary_for_age`
returns the table entry of the greatest anchor age at or below the
input age, and the entry of the smallest anchor age when every anchor
lies above the input age; the result is a pure function of the age and
the table. -/
theorem get_salary_for_age_resolves_anchor (table : List (Nat × SalaryEntry)) (age : Nat)
    (hne : table ≠ []) :
    ((∃ a ∈ table.map Prod.fst, a ≤ age) →
      ∃ amax, amax ∈ table.map Prod.fst ∧ amax ≤ age ∧
        (∀ b ∈ table.map Prod.fst, b ≤ age → b ≤ amax) ∧
        get_salary_for_age table age = (List.lookup amax table).getD ⟨0, 0⟩) ∧
    ((∀ a ∈ table.map Prod.fst, age < a) →
      ∃ amin, amin ∈ table.map Prod.fst ∧ (∀ b ∈ table.map Prod.fst, amin ≤ b) ∧
        get_salary_for_age table age = (List.lookup amin table).getD ⟨0, 0⟩) := by
  have hkne : table.map Prod.fst ≠ [] := by
    intro h
    exact hne (List.map_eq_nil_iff.mp h)
  obtain ⟨a0, rest, hL⟩ : ∃ a0 rest,
      (table.map Prod.fst).insertionSort (· ≤ ·) = a0 :: rest := by
    cases h : (table.map Prod.fst).insertionSort (· ≤ ·) with
    | nil =>
      exfalso
      have hp := List.perm_insertionSort (· ≤ ·) (table.map Prod.fst)
      rw [h] at hp
      exact hkne hp.nil_eq.symm
    | cons x xs => exact ⟨x, xs, rfl⟩
  have hsorted : List.Sorted (· ≤ ·) (a0 :: rest) := by
    have := List.sorted_insertionSort (· ≤ ·) (table.map Prod.fst)
    rwa [hL] at this
  have hperm : (a0 :: rest).Perm (table.map Prod.fst) := by
    have := List.perm_insertionSort (· ≤ ·) (table.map Prod.fst)
    rwa [hL] at this
  have hget : get_salary_for_age table age =
      (List.lookup (anchorLoop age (a0 :: rest) a0) table).getD ⟨0, 0⟩ := by
    simp only [get_salary_for_age, hL]
  constructor
  · intro hex
    have hex' : ∃ a ∈ (a0 :: rest), a ≤ age := by
      obtain ⟨a, ha, hle⟩ := hex
      exact ⟨a, hperm.mem_iff.mpr ha, hle⟩
    obtain ⟨r1, r2, r3⟩ := anchorLoop_max age (a0 :: rest) hsorted a0 hex'
    refine ⟨anchorLoop age (a0 :: rest) a0, hperm.mem_iff.mp r1, r2, ?_, hget⟩
    intro b hb hble
    exact r3 b (hperm.mem_iff.mpr hb) hble
  · intro hall
    have hall' : ∀ b ∈ (a0 :: rest), age < b := by
      intro b hb
      exact hall b (hperm.mem_iff.mp hb)
    have hloop : anchorLoop age (a0 :: rest) a0 = a0 :=
      anchorLoop_of_all_gt age (a0 :: rest) a0 hall'
    refine ⟨a0, hperm.mem_iff.mp (List.mem_cons_self a0 rest), ?_, ?_⟩
    · intro b hb
      rcases List.mem_cons.mp (hperm.mem_iff.mpr hb) with rfl | hbt
      · exact le_refl b
      · exact (List.sorted_cons.mp hsorted).1 b hbt
    · rw [hget, hloop]

theorem get_salary_for_age_resolves_anchor_witness :
    cfgBonus.income_progression ≠ [] ∧
    ∃ amax, amax ∈ cfgBonus.income_progression.map Prod.fst ∧ amax ≤ 35 ∧
      (∀ b ∈ cfgBonus.income_progression.map Prod.fst, b ≤ 35 → b ≤ amax) ∧
      get_salary_for_age cfgBonus.income_progression 35 =
        (List.lookup amax cfgBonus.income_progression).getD ⟨0, 0⟩ :=
  ⟨by simp [cfgBonus, cfgBase],
   (get_salary_for_age_resolves_anchor cfgBonus.income_progression 35
      (by simp [cfgBonus, cfgBase])).1
     ⟨30, by simp [cfgBonus, cfgBase], by norm_num⟩⟩

/-! ## C3: no cash-availability rationing -/

theorem cappedBucketUpdate_below_cap (limit cr tr c : ℚ) (cs : CappedState)
    (hc : 0 < c) (hroom : cs.counter + c ≤ limit) :
    (cappedBucketUpdate limit cr tr c cs).capped_balance =
      (cs.capped_balance + c) * (1 + cr / 12) ∧
    (cappedBucketUpdate limit cr tr c cs).counter = cs.counter + c := by
  have hlt : cs.counter < limit := by linarith
  have hm : min c (limit - cs.counter) = c := min_eq_left (by linarith)
  unfold cappedBucketUpdate
  rw [if_pos hc, if_pos hlt]
  exact ⟨by dsimp only; rw [hm], by dsimp only; rw [hm]⟩

/-- Within the lifetime cap (or with a non-positive contribution) a
capped bucket's update leaves the taxable balance untouched. -/
theorem cappedBucketUpdate_taxable_fixed (limit cr tr c cnt bal tax : ℚ)
    (h : cnt + c ≤ limit) :
    (cappedBucketUpdate limit cr tr c ⟨cnt, bal, tax⟩).taxable_balance = tax := by
  unfold cappedBucketUpdate
  dsimp only
  split_ifs with hc hlt
  · rfl
  · have hle : c ≤ 0 := by
      have := not_lt.mp hlt
      linarith
    exact absurd hc (not_lt.mpr hle)
  · rfl

/-- C3 (amended): the engine applies no cash-availability rationing.
Even in a month whose `available = income - expenses` is non-positive,
every planned bucket contribution is invested in full — the NISA
tsumitate and growth contributions within their lifetime caps, the
company-stock, education-fund, marriage-fund and high-dividend
contributions unconditionally — and the cash bucket absorbs the entire
(negative) monthly cashflow `income - expenses - planned investment`
plus the cash-type contributions minus the custom-event savings.
Nothing is zeroed or scaled by `available / requested`. -/
theorem no_cash_rationing (cfg : SimConfig) (age month : Nat) (ya : YearAcc)
    (hav : (calculate_monthly_data cfg age month ya.st.assets).income.total -
        (calculate_monthly_data cfg age month ya.st.assets).expenses_total ≤ 0)
    (hroom1 : ya.st.nisa_tsumitate_total_contribution +
        dget (calculate_monthly_data cfg age month ya.st.assets).investment "nisa_tsumitate" ≤
        cfg.investment_settings.nisa.tsumitate_limit)
    (hroom2 : ya.st.nisa_growth_total_contribution +
        dget (calculate_monthly_data cfg age month ya.st.assets).investment "nisa_growth" ≤
        cfg.investment_settings.nisa.growth_limit) :
    (0 < dget (calculate_monthly_data cfg age month ya.st.assets).investment "nisa_tsumitate" →
      (monthStep cfg age ya month).st.assets.nisa_tsumitate_balance =
        (ya.st.assets.nisa_tsumitate_balance +
          dget (calculate_monthly_data cfg age month ya.st.assets).investment "nisa_tsumitate") *
          (1 + cfg.investment_settings.nisa.expected_return / 12)) ∧
    (0 < dget (calculate_monthly_data cfg age month ya.st.assets).investment "nisa_growth" →
      (monthStep cfg age ya month).st.assets.nisa_growth_balance =
        (ya.st.assets.nisa_growth_balance +
          dget (calculate_monthly_data cfg age month ya.st.assets).investment "nisa_growth") *
          (1 + cfg.investment_settings.nisa.expected_return / 12)) ∧
    (0 < dget (calculate_monthly_data cfg age month ya.st.assets).investment "company_stock" →
      (monthStep cfg age ya month).st.assets.company_stock_shares =
        ya.st.assets.company_stock_shares +
          dget (calculate_monthly_data cfg age month ya.st.assets).investment "company_stock" *
            (1 + cfg.investment_settings.company_stock.incentive_rate) / ya.st.stock_price) ∧
    (0 < dget (calculate_monthly_data cfg age month ya.st.assets).investment "education_fund" →
      (monthStep cfg age ya month).st.assets.education_fund_balance =
        (ya.st.assets.education_fund_balance +
          dget (calculate_monthly_data cfg age month ya.st.assets).investment "education_fund") *
          (1 + cfg.investment_settings.education_fund.expected_return / 12)) ∧
    (0 < dget (calculate_monthly_data cfg age month ya.st.assets).investment "marriage_fund" →
      (monthStep cfg age ya month).st.assets.marriage_fund_balance =
        (ya.st.assets.marriage_fund_balance +
          dget (calculate_monthly_data cfg age month ya.st.assets).investment "marriage_fund") *
          (1 + cfg.investment_settings.education_fund.expected_return / 12)) ∧
    (0 < dget (calculate_monthly_data cfg age month ya.st.assets).investment
        "high_dividend_stocks" →
      (monthStep cfg age ya month).st.assets.taxable_account_balance =
        (ya.st.assets.taxable_account_balance +
          dget (calculate_monthly_data cfg age month ya.st.assets).investment
            "high_dividend_stocks") *
          (1 + cfg.investment_settings.taxable_account.expected_return / 12)) ∧
    (monthStep cfg age ya month).st.assets.cash_balance =
      ya.st.assets.cash_balance +
      (if 0 < dget (calculate_monthly_data cfg age month ya.st.assets).investment
          "child_preparation_fund" then
        dget (calculate_monthly_data cfg age month ya.st.assets).investment
          "child_preparation_fund" else 0) +
      (if 0 < dget (calculate_monthly_data cfg age month ya.st.assets).investment
          "emergency_fund" then
        dget (calculate_monthly_data cfg age month ya.st.assets).investment
          "emergency_fund" else 0) +
      (calculate_monthly_data cfg age month ya.st.assets).cashflow_monthly -
      ((get_custom_event_saving_for_age cfg age).map Prod.snd).sum := by
  refine ⟨?_, ?_, ?_, ?_, ?_, ?_, rfl⟩
  · intro hpos
    exact (cappedBucketUpdate_below_cap cfg.investment_settings.nisa.tsumitate_limit
      cfg.investment_settings.nisa.expected_return
      cfg.investment_settings.taxable_account.expected_return
      (dget (calculate_monthly_data cfg age month ya.st.assets).investment "nisa_tsumitate")
      ⟨ya.st.nisa_tsumitate_total_contribution, ya.st.assets.nisa_tsumitate_balance,
        ya.st.assets.taxable_account_balance⟩ hpos hroom1).1
  · intro hpos
    exact (cappedBucketUpdate_below_cap cfg.investment_settings.nisa.growth_limit
      cfg.investment_settings.nisa.expected_return
      cfg.investment_settings.taxable_account.expected_return
      (dget (calculate_monthly_data cfg age month ya.st.assets).investment "nisa_growth")
      ⟨ya.st.nisa_growth_total_contribution, ya.st.assets.nisa_growth_balance,
        (cappedBucketUpdate cfg.investment_settings.nisa.tsumitate_limit
          cfg.investment_settings.nisa.expected_return
          cfg.investment_settings.taxable_account.expected_return
          (dget (calculate_monthly_data cfg age month ya.st.assets).investment "nisa_tsumitate")
          ⟨ya.st.nisa_tsumitate_total_contribution, ya.st.assets.nisa_tsumitate_balance,
            ya.st.assets.taxable_account_balance⟩).taxable_balance⟩ hpos hroom2).1
  · intro hpos
    unfold monthStep
    dsimp only
    rw [if_pos hpos]
  · intro hpos
    unfold monthStep
    dsimp only
    rw [if_pos hpos]
  · intro hpos
    unfold monthStep
    dsimp only
    rw [if_pos hpos]
  · intro hpos
    have ht1 := cappedBucketUpdate_taxable_fixed cfg.investment_settings.nisa.tsumitate_limit
      cfg.investment_settings.nisa.expected_return
      cfg.investment_settings.taxable_account.expected_return
      (dget (calculate_monthly_data cfg age month ya.st.assets).investment "nisa_tsumitate")
      ya.st.nisa_tsumitate_total_contribution ya.st.assets.nisa_tsumitate_balance
      ya.st.assets.taxable_account_balance hroom1
    have ht2 := cappedBucketUpdate_taxable_fixed cfg.investment_settings.nisa.growth_limit
      cfg.investment_settings.nisa.expected_return
      cfg.investment_settings.taxable_account.expected_return
      (dget (calculate_monthly_data cfg age month ya.st.assets).investment "nisa_growth")
      ya.st.nisa_growth_total_contribution ya.st.assets.nisa_growth_balance
      ((cappedBucketUpdate cfg.investment_settings.nisa.tsumitate_limit
        cfg.investment_settings.nisa.expected_return
        cfg.investment_settings.taxable_account.expected_return
        (dget (calculate_monthly_data cfg age month ya.st.assets).investment "nisa_tsumitate")
        ⟨ya.st.nisa_tsumitate_total_contribution, ya.st.assets.nisa_tsumitate_balance,
          ya.st.assets.taxable_account_balance⟩).taxable_balance) hroom2
    unfold monthStep
    dsimp only
    rw [if_pos hpos, ht2, ht1]

theorem no_cash_rationing_witness :
    ((calculate_monthly_data cfgShortfall 30 1
        (initYearAcc (initState cfgShortfall)).st.assets).income.total -
      (calculate_monthly_data cfgShortfall 30 1
        (initYearAcc (initState cfgShortfall)).st.assets).expenses_total ≤ 0) ∧
    ((initYearAcc (initState cfgShortfall)).st.nisa_tsumitate_total_contribution +
      dget (calculate_monthly_data cfgShortfall 30 1
        (initYearAcc (initState cfgShortfall)).st.assets).investment "nisa_tsumitate" ≤
      cfgShortfall.investment_settings.nisa.tsumitate_limit) ∧
    ((initYearAcc (initState cfgShortfall)).st.nisa_growth_total_contribution +
      dget (calculate_monthly_data cfgShortfall 30 1
        (initYearAcc (initState cfgShortfall)).st.assets).investment "nisa_growth" ≤
      cfgShortfall.investment_settings.nisa.growth_limit) ∧
    (0 < dget (calculate_monthly_data cfgShortfall 30 1
        (initYearAcc (initState cfgShortfall)).st.assets).investment "nisa_tsumitate") ∧
    (monthStep cfgShortfall 30 (initYearAcc (initState cfgShortfall))
        1).st.assets.nisa_tsumitate_balance =
      ((initYearAcc (initState cfgShortfall)).st.assets.nisa_tsumitate_balance +
        dget (calculate_monthly_data cfgShortfall 30 1
          (initYearAcc (initState cfgShortfall)).st.assets).investment "nisa_tsumitate") *
        (1 + cfgShortfall.investment_settings.nisa.expected_return / 12) := by
  have h1 : (calculate_monthly_data cfgShortfall 30 1
      (initYearAcc (initState cfgShortfall)).st.assets).income.total -
      (calculate_monthly_data cfgShortfall 30 1
        (initYearAcc (initState cfgShortfall)).st.assets).expenses_total ≤ 0 := by
    norm_num [calculate_monthly_data, calculate_takehome, calculate_social_insurance_detailed,
      get_salary_for_age, anchorLoop, List.insertionSort, List.orderedInsert, List.lookup,
      get_spouse_income_for_age, get_pension_for_age, calculate_pension_amount_detailed,
      get_housing_allowance_for_age, get_housing_costs_for_age, get_phase_for_age, List.find?,
      calculate_child_allowance, apply_inflation, dget, dvalsum, dmerge, initState, initAssets,
      initYearAcc, cfgShortfall, cfgBase]
  have h2 : 0 < dget (calculate_monthly_data cfgShortfall 30 1
      (initYearAcc (initState cfgShortfall)).st.assets).investment "nisa_tsumitate" := by
    norm_num [calculate_monthly_data, get_phase_for_age, List.find?, dget, dmerge, List.lookup,
      initState, initAssets, initYearAcc, cfgShortfall, cfgBase]
  have h3 : (initYearAcc (initState cfgShortfall)).st.nisa_tsumitate_total_contribution +
      dget (calculate_monthly_data cfgShortfall 30 1
        (initYearAcc (initState cfgShortfall)).st.assets).investment "nisa_tsumitate" ≤
      cfgShortfall.investment_settings.nisa.tsumitate_limit := by
    norm_num [calculate_monthly_data, get_phase_for_age, List.find?, dget, dmerge, List.lookup,
      initState, initAssets, initYearAcc, cfgShortfall, cfgBase]
  have h4 : (initYearAcc (initState cfgShortfall)).st.nisa_growth_total_contribution +
      dget (calculate_monthly_data cfgShortfall 30 1
        (initYearAcc (initState cfgShortfall)).st.assets).investment "nisa_growth" ≤
      cfgShortfall.investment_settings.nisa.growth_limit := by
    have hs : ("nisa_growth" == "nisa_tsumitate") = false := by decide
    norm_num [hs, calculate_monthly_data, get_phase_for_age, List.find?, dget, dmerge,
      List.lookup, initState, initAssets, initYearAcc, cfgShortfall, cfgBase]
  exact ⟨h1, h3, h4, h2, (no_cash_rationing cfgShortfall 30 1
    (initYearAcc (initState cfgShortfall)) h1 h3 h4).1 h2⟩

/-- C3 counterexample: in `cfgShortfall` the first simulated month has
`available = income - expenses = -100 ≤ 0`, yet the NISA tsumitate
bucket absorbs its full planned 50-unit contribution instead of the
zero the claim requires (and the cash balance absorbs the full
negative cashflow of -150). -/
theorem rationing_claim_false :
    (calculate_monthly_data cfgShortfall 30 1 (initState cfgShortfall).assets).income.total -
      (calculate_monthly_data cfgShortfall 30 1 (initState cfgShortfall).assets).expenses_total =
      -100 ∧
    (monthStep cfgShortfall 30 (initYearAcc (initState cfgShortfall))
      1).st.assets.nisa_tsumitate_balance = 50 ∧
    (monthStep cfgShortfall 30 (initYearAcc (initState cfgShortfall))
      1).st.assets.nisa_tsumitate_balance ≠ 0 ∧
    (monthStep cfgShortfall 30 (initYearAcc (initState cfgShortfall))
      1).st.assets.cash_balance = -150 := by
  have hs1 : ("child_preparation_fund" == "nisa_tsumitate") = false := by decide
  have hs2 : ("emergency_fund" == "nisa_tsumitate") = false := by decide
  refine ⟨?_, ?_, ?_, ?_⟩ <;>
    · norm_num [hs1, hs2, monthStep, calculate_monthly_data, calculate_takehome,
        calculate_social_insurance_detailed, get_salary_for_age, anchorLoop, List.insertionSort,
        List.orderedInsert, List.lookup, get_spouse_income_for_age, get_pension_for_age,
        calculate_pension_amount_detailed, get_housing_allowance_for_age,
        get_housing_costs_for_age, get_phase_for_age, List.find?, calculate_child_allowance,
        apply_inflation, dget, dvalsum, dmerge, cappedBucketUpdate,
        get_custom_event_saving_for_age, get_active_custom_events, aget, aset, amem, initState,
        initAssets, initYearAcc, cfgShortfall, cfgBase, min_def]
      try decide

/-! ## C4: non-negativity of the non-cash balances -/

theorem getD_lookup_nonneg {α : Type} [BEq α] (k : α) :
    ∀ (d : List (α × ℚ)), (∀ p ∈ d, 0 ≤ p.2) → 0 ≤ (List.lookup k d).getD 0 := by
  intro d
  induction d with
  | nil => intro _; simp
  | cons p t ih =>
    intro h
    obtain ⟨k', v⟩ := p
    rw [List.lookup_cons]
    cases hb : k == k' with
    | true => simpa using h (k', v) (List.mem_cons_self _ t)
    | false => exact ih fun q hq => h q (List.mem_cons_of_mem _ hq)

theorem dget_nonneg (d : List (String × ℚ)) (k : String) (h : ∀ p ∈ d, 0 ≤ p.2) :
    0 ≤ dget d k :=
  getD_lookup_nonneg k d h

theorem aget_nonneg (l : List (Nat × ℚ)) (k : Nat) (h : ∀ p ∈ l, 0 ≤ p.2) :
    0 ≤ aget l k :=
  getD_lookup_nonneg k l h

theorem aset_nonneg (l : List (Nat × ℚ)) (k : Nat) (v : ℚ)
    (hl : ∀ p ∈ l, 0 ≤ p.2) (hv : 0 ≤ v) : ∀ p ∈ aset l k v, 0 ≤ p.2 := by
  intro p hp
  obtain ⟨q, hq, heq⟩ := List.mem_map.mp hp
  by_cases hk : q.1 = k
  · rw [if_pos hk] at heq
    rw [← heq]
    exact hv
  · rw [if_neg hk] at heq
    rw [← heq]
    exact hl q hq

theorem dmerge_nonneg (a b : List (String × ℚ))
    (ha : ∀ p ∈ a, 0 ≤ p.2) (hb : ∀ p ∈ b, 0 ≤ p.2) :
    ∀ p ∈ dmerge a b, 0 ≤ p.2 := by
  intro p hp
  rcases List.mem_append.mp hp with hpa | hpb
  · exact ha p (List.mem_filter.mp hpa).1
  · exact hb p hpb

/-- Every value of the merged investment dict of a monthly record is
non-negative when the configuration's planned amounts are. -/
theorem monthly_investment_nonneg (cfg : SimConfig)
    (h : ∀ ph ∈ cfg.phase_definitions,
      (∀ p ∈ ph.monthly_investment, 0 ≤ p.2) ∧ (∀ p ∈ ph.bonus_allocation, 0 ≤ p.2))
    (age month : Nat) (a : Assets) :
    ∀ p ∈ (calculate_monthly_data cfg age month a).investment, 0 ≤ p.2 := by
  show ∀ p ∈ dmerge _ _, 0 ≤ p.2
  cases hph : get_phase_for_age cfg.phase_definitions age with
  | none =>
    simp only [calculate_monthly_data, hph]
    intro p hp
    simp [dmerge] at hp
  | some ph =>
    have hmem : ph ∈ cfg.phase_definitions := List.mem_of_find?_eq_some hph
    obtain ⟨hmi, hba⟩ := h ph hmem
    simp only [calculate_monthly_data, hph]
    apply dmerge_nonneg
    · exact hmi
    · split_ifs with hb
      · intro p hp
        obtain ⟨q, hq, heq⟩ := List.mem_map.mp hp
        rw [← heq]
        have := hba q hq
        dsimp only
        positivity
      · intro p hp
        simp at hp

/-- Every value of the custom-event saving dict is non-negative when
the configured saving amounts are. -/
theorem event_savings_nonneg (cfg : SimConfig)
    (h : ∀ e ∈ cfg.custom_events.events, 0 ≤ e.auto_saving.monthly_amount) (age : Nat) :
    ∀ p ∈ get_custom_event_saving_for_age cfg age, 0 ≤ p.2 := by
  intro p hp
  obtain ⟨e, he, heq⟩ := List.mem_filterMap.mp hp
  have hev : e ∈ cfg.custom_events.events := by
    unfold get_active_custom_events at he
    split_ifs at he with hen
    · exact (List.mem_filter.mp he).1
    · simp at he
  by_cases h1 : e.auto_saving.enabled
  · rw [if_pos h1] at heq
    dsimp only at heq
    split_ifs at heq with h2
    rw [Option.some_inj] at heq
    rw [← heq]
    exact h e hev
  · rw [if_neg h1] at heq
    exact absurd heq Option.noConfusion

theorem savings_fold_nonneg :
    ∀ (savs : List (Nat × ℚ)), (∀ p ∈ savs, 0 ≤ p.2) →
    ∀ (fl : List (Nat × ℚ)), (∀ p ∈ fl, 0 ≤ p.2) →
    ∀ p ∈ savs.foldl
      (fun fl q => if amem fl q.1 then aset fl q.1 (aget fl q.1 + q.2) else fl) fl,
      0 ≤ p.2 := by
  intro savs
  induction savs with
  | nil => intro _ fl hfl p hp; simpa using hfl p hp
  | cons q t ih =>
    intro hs fl hfl
    rw [List.foldl_cons]
    apply ih (fun r hr => hs r (List.mem_cons_of_mem _ hr))
    split_ifs with hm
    · exact aset_nonneg _ _ _ hfl
        (add_nonneg (aget_nonneg _ _ hfl) (hs q (List.mem_cons_self _ _)))
    · exact hfl

theorem cappedBucketUpdate_nonneg (limit cr tr c : ℚ) (cs : CappedState)
    (hcr : -12 ≤ cr) (htr : -12 ≤ tr)
    (hb : 0 ≤ cs.capped_balance) (ht : 0 ≤ cs.taxable_balance) :
    0 ≤ (cappedBucketUpdate limit cr tr c cs).capped_balance ∧
    0 ≤ (cappedBucketUpdate limit cr tr c cs).taxable_balance := by
  unfold cappedBucketUpdate
  split_ifs with h1 h2
  · refine ⟨?_, ht⟩
    dsimp only
    have hmin : 0 ≤ min c (limit - cs.counter) := le_min (le_of_lt h1) (by linarith)
    apply mul_nonneg (by linarith) (by linarith)
  · refine ⟨hb, ?_⟩
    dsimp only
    apply mul_nonneg (by linarith) (by linarith)
  · exact ⟨hb, ht⟩

/-- The month step keeps every non-cash balance non-negative and the
stock price positive. -/
theorem monthStep_nonneg (cfg : SimConfig) (h : ConfigNonNeg cfg) (age : Nat)
    (ya : YearAcc) (month : Nat) (hs : NonNegOK ya.st) :
    NonNegOK (monthStep cfg age ya month).st := by
  obtain ⟨hph, hev, hn, htx, hedu, hinc, hip, hgr, hdy, hr1, hr2, hr3, hr4⟩ := h
  obtain ⟨⟨a1, a2, a3, a4, a5, a6, a7, a8⟩, hsp⟩ := hs
  have hinv : ∀ p ∈ (calculate_monthly_data cfg age month ya.st.assets).investment, 0 ≤ p.2 :=
    monthly_investment_nonneg cfg hph age month ya.st.assets
  have hd : ∀ k, 0 ≤ dget (calculate_monthly_data cfg age month ya.st.assets).investment k :=
    fun k => dget_nonneg _ k hinv
  have hc1 := cappedBucketUpdate_nonneg cfg.investment_settings.nisa.tsumitate_limit
    cfg.investment_settings.nisa.expected_return
    cfg.investment_settings.taxable_account.expected_return
    (dget (calculate_monthly_data cfg age month ya.st.assets).investment "nisa_tsumitate")
    ⟨ya.st.nisa_tsumitate_total_contribution, ya.st.assets.nisa_tsumitate_balance,
      ya.st.assets.taxable_account_balance⟩ hn htx a1 a7
  have hc2 := cappedBucketUpdate_nonneg cfg.investment_settings.nisa.growth_limit
    cfg.investment_settings.nisa.expected_return
    cfg.investment_settings.taxable_account.expected_return
    (dget (calculate_monthly_data cfg age month ya.st.assets).investment "nisa_growth")
    ⟨ya.st.nisa_growth_total_contribution, ya.st.assets.nisa_growth_balance,
      (cappedBucketUpdate cfg.investment_settings.nisa.tsumitate_limit
        cfg.investment_settings.nisa.expected_return
        cfg.investment_settings.taxable_account.expected_return
        (dget (calculate_monthly_data cfg age month ya.st.assets).investment "nisa_tsumitate")
        ⟨ya.st.nisa_tsumitate_total_contribution, ya.st.assets.nisa_tsumitate_balance,
          ya.st.assets.taxable_account_balance⟩).taxable_balance⟩ hn htx a2 hc1.2
  refine ⟨⟨hc1.1, hc2.1, a3, ?_, ?_, ?_, ?_, ?_⟩, hsp⟩
  · -- shares
    dsimp only [monthStep]
    split_ifs with hcs
    · have : 0 ≤ (dget (calculate_monthly_data cfg age month ya.st.assets).investment
          "company_stock") * (1 + cfg.investment_settings.company_stock.incentive_rate) /
          ya.st.stock_price :=
        div_nonneg (mul_nonneg (le_of_lt hcs) (by linarith)) (le_of_lt hsp)
      linarith
    · exact a4
  · -- education fund
    dsimp only [monthStep]
    split_ifs with hcs
    · exact mul_nonneg (by linarith [le_of_lt hcs]) (by linarith)
    · exact a5
  · -- marriage fund
    dsimp only [monthStep]
    split_ifs with hcs
    · exact mul_nonneg (by linarith [le_of_lt hcs]) (by linarith)
    · exact a6
  · -- taxable account after the high-dividend step
    dsimp only [monthStep]
    split_ifs with hcs
    · exact mul_nonneg (by linarith [hc2.2, le_of_lt hcs]) (by linarith)
    · exact hc2.2
  · -- custom funds after the saving fold
    dsimp only [monthStep]
    exact savings_fold_nonneg _ (event_savings_nonneg cfg hev age) _ a8

theorem educationCostStep_nonneg (cfg : SimConfig) (age : Nat) (a : Assets)
    (h : AssetsNonNeg a) : AssetsNonNeg (educationCostStep cfg age a).1 := by
  unfold educationCostStep
  dsimp only
  split_ifs with h1
  · exact h
  · exact h

theorem processCustomEvent_nonneg (a : Assets) (e : CustomEvent) (h : AssetsNonNeg a) :
    AssetsNonNeg (processCustomEvent a e).1 := by
  obtain ⟨h1, h2, h3, h4, h5, h6, h7, h8⟩ := h
  unfold processCustomEvent
  dsimp only
  split_ifs with hge hfb
  · exact ⟨h1, h2, h3, h4, h5, h6, h7, aset_nonneg _ _ _ h8 (sub_nonneg.mpr hge)⟩
  · exact ⟨h1, h2, h3, h4, h5, h6, h7, aset_nonneg _ _ _ h8 (le_refl 0)⟩
  · exact ⟨h1, h2, h3, h4, h5, h6, h7, h8⟩

theorem customEventsStep_nonneg (cfg : SimConfig) (age : Nat) (a : Assets)
    (h : AssetsNonNeg a) : AssetsNonNeg (customEventsStep cfg age a).1 := by
  unfold customEventsStep
  exact foldl_preserves (P := fun acc : Assets × List IrregularExpense => AssetsNonNeg acc.1)
    (fun acc e =>
      let r := processCustomEvent acc.1 e
      (r.1, acc.2 ++ [r.2]))
    (fun acc e hacc => processCustomEvent_nonneg acc.1 e hacc)
    (get_custom_events_for_age cfg age) (a, []) h

theorem stockDividendStep_nonneg (cfg : SimConfig) (age : Nat) (price : ℚ) (a : Assets)
    (hgr : -1 < cfg.investment_settings.company_stock.price_growth_rate)
    (hdy : 0 ≤ cfg.investment_settings.company_stock.dividend_yield)
    (hr1 : 0 ≤ cfg.investment_settings.dividend_reinvestment.age_0_45)
    (hr2 : 0 ≤ cfg.investment_settings.dividend_reinvestment.age_46_55)
    (hr3 : 0 ≤ cfg.investment_settings.dividend_reinvestment.age_56_64)
    (hr4 : 0 ≤ cfg.investment_settings.dividend_reinvestment.age_65_99)
    (hp : 0 < price) (h : AssetsNonNeg a) :
    0 < (stockDividendStep cfg age price a).1 ∧
    AssetsNonNeg (stockDividendStep cfg age price a).2.1 := by
  obtain ⟨h1, h2, h3, h4, h5, h6, h7, h8⟩ := h
  have hp1 : 0 < price * (1 + cfg.investment_settings.company_stock.price_growth_rate) :=
    mul_pos hp (by linarith)
  have hrate : 0 ≤ (if age ≤ 45 then cfg.investment_settings.dividend_reinvestment.age_0_45
      else if age ≤ 55 then cfg.investment_settings.dividend_reinvestment.age_46_55
      else if age ≤ 64 then cfg.investment_settings.dividend_reinvestment.age_56_64
      else cfg.investment_settings.dividend_reinvestment.age_65_99) := by
    split_ifs <;> assumption
  unfold stockDividendStep
  dsimp only
  generalize hRdef : (if age ≤ 45 then cfg.investment_settings.dividend_reinvestment.age_0_45
      else if age ≤ 55 then cfg.investment_settings.dividend_reinvestment.age_46_55
      else if age ≤ 64 then cfg.investment_settings.dividend_reinvestment.age_56_64
      else cfg.investment_settings.dividend_reinvestment.age_65_99) = R
  have hRn : 0 ≤ R := hRdef ▸ hrate
  split_ifs with hbal hre
  · -- dividends with reinvestment
    have hsh2 : 0 ≤ a.company_stock_shares +
        a.company_stock_shares *
            (price * (1 + cfg.investment_settings.company_stock.price_growth_rate)) *
            cfg.investment_settings.company_stock.dividend_yield * R /
          (price * (1 + cfg.investment_settings.company_stock.price_growth_rate)) := by
      have : 0 ≤ a.company_stock_shares *
          (price * (1 + cfg.investment_settings.company_stock.price_growth_rate)) *
          cfg.investment_settings.company_stock.dividend_yield * R /
          (price * (1 + cfg.investment_settings.company_stock.price_growth_rate)) :=
        div_nonneg (mul_nonneg (mul_nonneg (mul_nonneg h4 hp1.le) hdy) hRn) hp1.le
      linarith
    exact ⟨hp1, h1, h2, mul_nonneg hsh2 hp1.le, hsh2, h5, h6, h7, h8⟩
  · -- dividends fully distributed in cash
    exact ⟨hp1, h1, h2, le_of_lt hbal, h4, h5, h6, h7, h8⟩
  · -- no stock balance
    exact ⟨hp1, h1, h2, mul_nonneg h4 hp1.le, h4, h5, h6, h7, h8⟩

theorem marriageStep_nonneg (cfg : SimConfig) (age : Nat) (a : Assets)
    (h : AssetsNonNeg a) : AssetsNonNeg (marriageStep cfg age a).1 := by
  obtain ⟨h1, h2, h3, h4, h5, h6, h7, h8⟩ := h
  unfold marriageStep
  dsimp only
  split_ifs <;>
    refine ⟨?_, ?_, ?_, ?_, ?_, ?_, ?_, ?_⟩ <;>
    first
      | assumption
      | exact le_refl 0
      | exact le_max_left 0 _
      | exact sub_nonneg.mpr (by assumption)

theorem homePurchaseStep_nonneg (cfg : SimConfig) (age : Nat) (a : Assets)
    (h : AssetsNonNeg a) : AssetsNonNeg (homePurchaseStep cfg age a).1 := by
  obtain ⟨h1, h2, h3, h4, h5, h6, h7, h8⟩ := h
  unfold homePurchaseStep
  dsimp only
  split_ifs <;>
    refine ⟨?_, ?_, ?_, ?_, ?_, ?_, ?_, ?_⟩ <;>
    first
      | assumption
      | exact le_refl 0
      | exact le_max_left 0 _
      | exact sub_nonneg.mpr (by assumption)

theorem universityStep_nonneg (cfg : SimConfig) (age : Nat) (a : Assets)
    (h : AssetsNonNeg a) : AssetsNonNeg (universityStep cfg age a).1 := by
  obtain ⟨h1, h2, h3, h4, h5, h6, h7, h8⟩ := h
  unfold universityStep
  dsimp only
  split_ifs <;>
    refine ⟨?_, ?_, ?_, ?_, ?_, ?_, ?_, ?_⟩ <;>
    first
      | assumption
      | exact le_refl 0
      | exact le_max_left 0 _
      | exact sub_nonneg.mpr (by assumption)

theorem retirementStep_nonneg (cfg : SimConfig) (age : Nat) (a : Assets)
    (h : AssetsNonNeg a) : AssetsNonNeg (retirementStep cfg age a).1 := by
  unfold retirementStep
  dsimp only
  split_ifs <;> exact h

/-- The year-end step keeps every non-cash balance non-negative and the
stock price positive. -/
theorem yearEndStep_nonneg (cfg : SimConfig) (h : ConfigNonNeg cfg) (age : Nat)
    (ya : YearAcc) (hs : NonNegOK ya.st) : NonNegOK (yearEndStep cfg age ya).1 := by
  obtain ⟨hph, hev, hn, htx, hedu, hinc, hip, hgr, hdy, hr1, hr2, hr3, hr4⟩ := h
  obtain ⟨ha0, hp0⟩ := hs
  have h1 := educationCostStep_nonneg cfg age ya.st.assets ha0
  have h2 := customEventsStep_nonneg cfg age _ h1
  have h3 := stockDividendStep_nonneg cfg age ya.st.stock_price _ hgr hdy hr1 hr2 hr3 hr4 hp0 h2
  have h4 := marriageStep_nonneg cfg age _ h3.2
  have h5 := homePurchaseStep_nonneg cfg age _ h4
  have h6 := universityStep_nonneg cfg age _ h5
  have h7 := retirementStep_nonneg cfg age _ h6
  exact ⟨h7, h3.1⟩

theorem initState_nonneg (cfg : SimConfig)
    (hip : 0 < cfg.investment_settings.company_stock.initial_price) :
    NonNegOK (initState cfg) := by
  refine ⟨⟨le_refl 0, le_refl 0, le_refl 0, le_refl 0, le_refl 0, le_refl 0, le_refl 0, ?_⟩, hip⟩
  intro p hp
  obtain ⟨e, he, heq⟩ := List.mem_map.mp hp
  rw [← heq]

/-- C4 (amended): under the `ConfigNonNeg` sanity conditions every
named non-cash bucket balance (NISA tsumitate, NISA growth, company
stock balance and shares, education fund, marriage fund, taxable
account, custom-event funds) is non-negative after every monthly
update and every year-end settlement of a run; the cash balance is the
exception and can go negative (see the counterexample). -/
theorem noncash_balances_nonneg (cfg : SimConfig) (h : ConfigNonNeg cfg) :
    ∀ s ∈ simTrace cfg, NonNegOK s := by
  have hip : 0 < cfg.investment_settings.company_stock.initial_price := by
    obtain ⟨-, -, -, -, -, -, hip, -⟩ := h
    exact hip
  exact runTrace_all cfg (fun age ya month => monthStep_nonneg cfg h age ya month)
    (fun age ya => yearEndStep_nonneg cfg h age ya) (agesList cfg) (initState cfg)
    (initState_nonneg cfg hip)

theorem noncash_balances_nonneg_witness :
    ConfigNonNeg cfgBase ∧ ∀ s ∈ simTrace cfgBase, NonNegOK s := by
  have hcfg : ConfigNonNeg cfgBase := by
    refine ⟨?_, ?_, ?_, ?_, ?_, ?_, ?_, ?_, ?_, ?_, ?_, ?_, ?_⟩ <;>
      norm_num [cfgBase]
  exact ⟨hcfg, noncash_balances_nonneg cfgBase hcfg⟩

/-- C4 counterexample: in the minimal configuration `cfgBase` (no
income, 10 units of monthly expenses) the cash balance is already
negative after the first simulated month, so the claim that no named
bucket balance — the cash bucket included — is ever negative fails on
the code. -/
theorem cash_goes_negative :
    ∃ s ∈ simTrace cfgBase, s.assets.cash_balance < 0 := by
  refine ⟨(monthStep cfgBase 30 (initYearAcc (initState cfgBase)) 1).st, ?_, ?_⟩
  · show _ ∈ runTrace cfgBase (agesList cfgBase) (initState cfgBase)
    have h30 : agesList cfgBase = [30] := by norm_num [agesList, cfgBase, List.range']
    rw [h30]
    simp only [runTrace, yearTrace]
    apply List.mem_append_left
    apply List.mem_append_left
    refine List.mem_map.mpr ⟨monthStep cfgBase 30 (initYearAcc (initState cfgBase)) 1, ?_, rfl⟩
    have hm : monthsList = 1 :: List.range' 2 11 := by norm_num [monthsList, List.range']
    rw [hm]
    exact List.mem_cons_self _ _
  · show (monthStep cfgBase 30 (initYearAcc (initState cfgBase)) 1).st.assets.cash_balance < 0
    have : (monthStep cfgBase 30 (initYearAcc (initState cfgBase))
        1).st.assets.cash_balance = -10 := by
      norm_num [monthStep, calculate_monthly_data, calculate_takehome,
        calculate_social_insurance_detailed, get_salary_for_age, anchorLoop,
        List.insertionSort, List.orderedInsert, List.lookup, get_spouse_income_for_age,
        get_pension_for_age, calculate_pension_amount_detailed, get_housing_allowance_for_age,
        get_housing_costs_for_age, get_phase_for_age, List.find?, calculate_child_allowance,
        apply_inflation, dget, dvalsum, dmerge, cappedBucketUpdate,
        get_custom_event_saving_for_age, get_active_custom_events, aget, aset, amem, initState,
        initAssets, initYearAcc, cfgBase, min_def]
    rw [this]
    norm_num

/-! ## C5: waterfall payment-source completeness -/

theorem aget_aset : ∀ (l : List (Nat × ℚ)) (k : Nat) (v : ℚ), amem l k = true →
    aget (aset l k v) k = v := by
  intro l
  induction l with
  | nil => intro k v h; simp [amem] at h
  | cons p t ih =>
    intro k v h
    obtain ⟨k', v'⟩ := p
    by_cases hk : k' = k
    · subst hk
      simp [aget, aset, List.lookup_cons]
    · have hne : (k == k') = false := by
        rw [beq_eq_false_iff_ne]
        exact fun he => hk he.symm
      have h' : amem t k = true := by
        unfold amem at h ⊢
        rw [List.lookup_cons, hne] at h
        exact h
      show aget (aset ((k', v') :: t) k v) k = v
      unfold aset
      rw [List.map_cons]
      rw [show (if (k', v').1 = k then (k, v) else (k', v')) = (k', v') from if_neg hk]
      unfold aget
      rw [List.lookup_cons, hne]
      exact ih k v h'

/-- Settling one custom event: the recorded payment sources sum to the
recorded amount, and that amount is exactly what leaves the ledger
(fund decrease plus cash decrease). -/
theorem processCustomEvent_sources (a : Assets) (e : CustomEvent)
    (hmem : amem a.custom_funds e.id = true) (hfb : 0 ≤ aget a.custom_funds e.id) :
    sourcesSum (processCustomEvent a e).2.payment_sources = (processCustomEvent a e).2.amount ∧
    (aget a.custom_funds e.id - aget (processCustomEvent a e).1.custom_funds e.id) +
      (a.cash_balance - (processCustomEvent a e).1.cash_balance) =
      (processCustomEvent a e).2.amount := by
  unfold processCustomEvent
  dsimp only
  split_ifs with hge hpos
  · rw [aget_aset _ _ _ hmem]
    constructor
    · simp [sourcesSum]
    · dsimp only
      ring
  · rw [aget_aset _ _ _ hmem]
    constructor
    · simp [sourcesSum]
      try ring
    · dsimp only
      ring
  · have hz : aget a.custom_funds e.id = 0 := le_antisymm (not_lt.mp hpos) hfb
    constructor
    · simp [sourcesSum, hz]
    · dsimp only
      rw [hz]
      ring

/-- Marriage settlement: the single record's sources sum to the
marriage cost, which is exactly what leaves the ledger. -/
theorem marriageStep_sources (cfg : SimConfig) (age : Nat) (a : Assets)
    (hmar : 0 ≤ a.marriage_fund_balance) :
    (∀ r ∈ (marriageStep cfg age a).2, sourcesSum r.payment_sources = r.amount) ∧
    (a.marriage_fund_balance - (marriageStep cfg age a).1.marriage_fund_balance) +
      (a.cash_balance - (marriageStep cfg age a).1.cash_balance) =
      ((marriageStep cfg age a).2.map IrregularExpense.amount).sum := by
  unfold marriageStep
  dsimp only
  split_ifs with hage hcost hpos
  · constructor
    · intro r hr
      rw [List.mem_singleton] at hr
      subst hr
      simp [sourcesSum]
    · dsimp only
      simp [sourcesSum]
  · constructor
    · intro r hr
      rw [List.mem_singleton] at hr
      subst hr
      simp [sourcesSum]
      try ring
    · dsimp only
      simp [sourcesSum]
      try ring
  · have hz : a.marriage_fund_balance = 0 := le_antisymm (not_lt.mp hpos) hmar
    constructor
    · intro r hr
      rw [List.mem_singleton] at hr
      subst hr
      simp [sourcesSum, hz]
    · dsimp only
      simp [sourcesSum, hz]
  · simp [sourcesSum]

theorem sourcesSum_append (l1 l2 : List PaymentSource) :
    sourcesSum (l1 ++ l2) = sourcesSum l1 + sourcesSum l2 := by
  simp [sourcesSum]

/-- University settlement: each per-child record's proportionally
scaled sources sum to that child's amount, and the education-fund and
cash decreases sum to the year's university cost. -/
theorem universityStep_sources (cfg : SimConfig) (age : Nat) (a : Assets)
    (hedu : 0 ≤ a.education_fund_balance) :
    (∀ r ∈ (universityStep cfg age a).2.1, sourcesSum r.payment_sources = r.amount) ∧
    (a.education_fund_balance - (universityStep cfg age a).1.education_fund_balance) +
      (a.cash_balance - (universityStep cfg age a).1.cash_balance) =
      (universityStep cfg age a).2.2 := by
  unfold universityStep
  try dsimp only
  split_ifs with hcost hfull hpos
  · -- fully funded from the education fund
    have hT := ne_of_gt hcost
    constructor
    · intro r hr
      obtain ⟨d, hd, rfl⟩ := List.mem_map.mp hr
      simp [sourcesSum]
      field_simp
    · try dsimp only
      ring
  · -- shortfall, some education fund used
    have hT := ne_of_gt hcost
    constructor
    · intro r hr
      obtain ⟨d, hd, rfl⟩ := List.mem_map.mp hr
      simp [sourcesSum]
      field_simp
      try ring
    · try dsimp only
      ring
  · -- shortfall, education fund empty
    have hT := ne_of_gt hcost
    have hz : a.education_fund_balance = 0 := le_antisymm (not_lt.mp hpos) hedu
    constructor
    · intro r hr
      obtain ⟨d, hd, rfl⟩ := List.mem_map.mp hr
      simp [sourcesSum, hz]
      field_simp
      try ring
    · try dsimp only
      rw [hz]
      ring
  · -- no university cost this year
    constructor
    · intro r hr
      simp at hr
    · try dsimp only
      ring

theorem homePurchaseRecords_total (d c : ℚ) (ps : List PaymentSource) :
    ((homePurchaseRecords d c ps).map (fun r => sourcesSum r.payment_sources)).sum =
      sourcesSum ps := by
  unfold homePurchaseRecords
  split_ifs with h
  · rw [List.map_cons, List.map_cons, List.map_nil]
    try dsimp only
    rw [List.sum_cons, List.sum_cons, List.sum_nil, add_zero]
    rw [← sourcesSum_append, List.take_append_drop]
  · rw [List.map_cons, List.map_cons, List.map_nil]
    try dsimp only
    rw [List.sum_cons, List.sum_cons, List.sum_nil]
    simp [sourcesSum]

/-- Home purchase: the concatenation of the two records' sources sums
to the total amount deducted from the ledger (cash, education fund and
NISA growth decreases combined); the per-record split is by list
halving and need not match the individual record amounts. -/
theorem homePurchaseStep_sources (cfg : SimConfig) (age : Nat) (a : Assets)
    (hcash : 0 ≤ a.cash_balance) (hedu : 0 ≤ a.education_fund_balance)
    (hng : 0 ≤ a.nisa_growth_balance) :
    ((homePurchaseStep cfg age a).2.map (fun r => sourcesSum r.payment_sources)).sum =
      (a.cash_balance - (homePurchaseStep cfg age a).1.cash_balance) +
      (a.education_fund_balance - (homePurchaseStep cfg age a).1.education_fund_balance) +
      (a.nisa_growth_balance - (homePurchaseStep cfg age a).1.nisa_growth_balance) := by
  have hps0 : sourcesSum (if 0 < a.cash_balance
      then [PaymentSource.mk "現金" a.cash_balance] else []) = a.cash_balance := by
    split_ifs with h0
    · simp [sourcesSum]
    · have hz : a.cash_balance = 0 := le_antisymm (not_lt.mp h0) hcash
      simp [sourcesSum, hz]
  have hps1 : sourcesSum (if 0 < a.education_fund_balance
      then [PaymentSource.mk "教育資金" a.education_fund_balance] else []) =
      a.education_fund_balance := by
    split_ifs with h0
    · simp [sourcesSum]
    · have hz : a.education_fund_balance = 0 := le_antisymm (not_lt.mp h0) hedu
      simp [sourcesSum, hz]
  have hps2 : sourcesSum (if 0 < a.nisa_growth_balance
      then [PaymentSource.mk "NISA成長" a.nisa_growth_balance] else []) =
      a.nisa_growth_balance := by
    split_ifs with h0
    · simp [sourcesSum]
    · have hz : a.nisa_growth_balance = 0 := le_antisymm (not_lt.mp h0) hng
      simp [sourcesSum, hz]
  unfold homePurchaseStep
  try dsimp only
  by_cases hage : age = cfg.life_events.home_purchase.age
  · rw [if_pos hage]
    by_cases hc : cfg.life_events.home_purchase.down_payment +
        cfg.life_events.home_purchase.closing_costs ≤ a.cash_balance
    · rw [if_pos hc]
      rw [homePurchaseRecords_total]
      try dsimp only
      simp [sourcesSum]
      try ring
    · rw [if_neg hc]
      try dsimp only
      by_cases he : cfg.life_events.home_purchase.down_payment +
          cfg.life_events.home_purchase.closing_costs - a.cash_balance ≤
          a.education_fund_balance
      · rw [if_pos he]
        rw [homePurchaseRecords_total, sourcesSum_append, hps0]
        try dsimp only
        simp [sourcesSum]
        try ring
      · rw [if_neg he]
        try dsimp only
        by_cases hn : cfg.life_events.home_purchase.down_payment +
            cfg.life_events.home_purchase.closing_costs - a.cash_balance -
            a.education_fund_balance ≤ a.nisa_growth_balance
        · rw [if_pos hn]
          rw [homePurchaseRecords_total, sourcesSum_append, sourcesSum_append, hps0, hps1]
          try dsimp only
          simp [sourcesSum]
          try ring
        · rw [if_neg hn]
          have hmax : max 0 (a.nisa_growth_balance -
              (cfg.life_events.home_purchase.down_payment +
                cfg.life_events.home_purchase.closing_costs - a.cash_balance -
                a.education_fund_balance)) = 0 :=
            max_eq_left (by linarith [not_le.mp hn])
          rw [homePurchaseRecords_total, sourcesSum_append, sourcesSum_append, hps0, hps1,
            hps2]
          try dsimp only
          rw [hmax]
          ring
  · rw [if_neg hage]
    try dsimp only
    simp [sourcesSum]

/-- C5 (amended): for custom-event, marriage and university entries
the recorded payment sources sum to the amount actually deducted from
the ledger for that event; for the two home-purchase entries only the
concatenation of their source lists sums to the amount deducted — the
split across the two entries is by halving the shared source list, so
an individual home-purchase entry's sources need not sum to its
amount (see the counterexample).  The balance hypotheses hold at every
step of a run by the non-negativity invariant. -/
theorem waterfall_payment_sources (cfg : SimConfig) (age : Nat) (a : Assets)
    (e : CustomEvent)
    (hmem : amem a.custom_funds e.id = true) (hfb : 0 ≤ aget a.custom_funds e.id)
    (hmar : 0 ≤ a.marriage_fund_balance) (hedu : 0 ≤ a.education_fund_balance)
    (hcash : 0 ≤ a.cash_balance) (hng : 0 ≤ a.nisa_growth_balance) :
    (sourcesSum (processCustomEvent a e).2.payment_sources =
        (processCustomEvent a e).2.amount ∧
      (aget a.custom_funds e.id - aget (processCustomEvent a e).1.custom_funds e.id) +
        (a.cash_balance - (processCustomEvent a e).1.cash_balance) =
        (processCustomEvent a e).2.amount) ∧
    ((∀ r ∈ (marriageStep cfg age a).2, sourcesSum r.payment_sources = r.amount) ∧
      (a.marriage_fund_balance - (marriageStep cfg age a).1.marriage_fund_balance) +
        (a.cash_balance - (marriageStep cfg age a).1.cash_balance) =
        ((marriageStep cfg age a).2.map IrregularExpense.amount).sum) ∧
    ((∀ r ∈ (universityStep cfg age a).2.1, sourcesSum r.payment_sources = r.amount) ∧
      (a.education_fund_balance - (universityStep cfg age a).1.education_fund_balance) +
        (a.cash_balance - (universityStep cfg age a).1.cash_balance) =
        (universityStep cfg age a).2.2) ∧
    ((homePurchaseStep cfg age a).2.map (fun r => sourcesSum r.payment_sources)).sum =
      (a.cash_balance - (homePurchaseStep cfg age a).1.cash_balance) +
      (a.education_fund_balance - (homePurchaseStep cfg age a).1.education_fund_balance) +
      (a.nisa_growth_balance - (homePurchaseStep cfg age a).1.nisa_growth_balance) :=
  ⟨processCustomEvent_sources a e hmem hfb, marriageStep_sources cfg age a hmar,
   universityStep_sources cfg age a hedu, homePurchaseStep_sources cfg age a hcash hedu hng⟩

theorem waterfall_payment_sources_witness :
    amem stOrder.assets.custom_funds eOrder.id = true ∧
    (0 ≤ aget stOrder.assets.custom_funds eOrder.id) ∧
    (0 ≤ stOrder.assets.marriage_fund_balance) ∧
    (0 ≤ stOrder.assets.education_fund_balance) ∧
    (0 ≤ stOrder.assets.cash_balance) ∧
    (0 ≤ stOrder.assets.nisa_growth_balance) ∧
    (sourcesSum (processCustomEvent stOrder.assets eOrder).2.payment_sources =
        (processCustomEvent stOrder.assets eOrder).2.amount ∧
      (aget stOrder.assets.custom_funds eOrder.id -
          aget (processCustomEvent stOrder.assets eOrder).1.custom_funds eOrder.id) +
        (stOrder.assets.cash_balance -
          (processCustomEvent stOrder.assets eOrder).1.cash_balance) =
        (processCustomEvent stOrder.assets eOrder).2.amount) := by
  have h1 : amem stOrder.assets.custom_funds eOrder.id = true := by
    norm_num [amem, stOrder, eOrder, List.lookup]
  have h2 : (0 : ℚ) ≤ aget stOrder.assets.custom_funds eOrder.id := by
    norm_num [aget, stOrder, eOrder, List.lookup]
  have h3 : (0 : ℚ) ≤ stOrder.assets.marriage_fund_balance := by norm_num [stOrder]
  have h4 : (0 : ℚ) ≤ stOrder.assets.education_fund_balance := by norm_num [stOrder]
  have h5 : (0 : ℚ) ≤ stOrder.assets.cash_balance := by norm_num [stOrder]
  have h6 : (0 : ℚ) ≤ stOrder.assets.nisa_growth_balance := by norm_num [stOrder]
  exact ⟨h1, h2, h3, h4, h5, h6,
    (waterfall_payment_sources cfgOrder 30 stOrder.assets eOrder h1 h2 h3 h4 h5 h6).1⟩

/-- C5 counterexample: a home purchase (down payment 3,000,000,
closing costs 1,000,000) fully paid from a 10,000,000 cash balance.
Both recorded events are fully funded, so the amount actually deducted
from the ledger for each is its own amount, yet the down-payment entry
records sources summing to 4,000,000 and the closing-costs entry
records no sources at all: the claim fails on each individual
entry. -/
theorem home_purchase_sources_mismatch :
    (homePurchaseStep cfgHome 30 assetsCash10M).2.map
        (fun r => (r.amount, sourcesSum r.payment_sources)) =
      [(3000000, 4000000), (1000000, 0)] ∧
    assetsCash10M.cash_balance -
      (homePurchaseStep cfgHome 30 assetsCash10M).1.cash_balance = 4000000 ∧
    ((4000000 : ℚ) ≠ 3000000 ∧ (0 : ℚ) ≠ 1000000) := by
  refine ⟨?_, ?_, by norm_num⟩
  · norm_num [homePurchaseStep, homePurchaseRecords, cfgHome, cfgBase, assetsCash10M,
      sourcesSum]
  · norm_num [homePurchaseStep, homePurchaseRecords, cfgHome, cfgBase, assetsCash10M]

/-! ## C6: year-end processing order -/

theorem agree_refl (a : Assets) : agreeExceptCashFunds a a :=
  ⟨rfl, rfl, rfl, rfl, rfl, rfl, rfl, rfl⟩

theorem agree_trans {a b c : Assets} (h1 : agreeExceptCashFunds a b)
    (h2 : agreeExceptCashFunds b c) : agreeExceptCashFunds a c := by
  obtain ⟨x1, x2, x3, x4, x5, x6, x7, x8⟩ := h1
  obtain ⟨y1, y2, y3, y4, y5, y6, y7, y8⟩ := h2
  exact ⟨x1.trans y1, x2.trans y2, x3.trans y3, x4.trans y4, x5.trans y5, x6.trans y6,
    x7.trans y7, x8.trans y8⟩

/-- The updated stock price does not depend on the asset dict. -/
theorem stockDividendStep_price (cfg : SimConfig) (age : Nat) (p : ℚ) (a : Assets) :
    (stockDividendStep cfg age p a).1 =
      p * (1 + cfg.investment_settings.company_stock.price_growth_rate) := by
  unfold stockDividendStep
  dsimp only
  split_ifs <;> rfl

/-- The year's university cost does not depend on the asset dict. -/
theorem universityStep_cost (cfg : SimConfig) (age : Nat) (a b : Assets) :
    (universityStep cfg age a).2.2 = (universityStep cfg age b).2.2 := by
  unfold universityStep
  dsimp only
  split_ifs <;> rfl

/-- The retirement records do not depend on the asset dict. -/
theorem retirementStep_records (cfg : SimConfig) (age : Nat) (a b : Assets) :
    (retirementStep cfg age a).2 = (retirementStep cfg age b).2 := by
  unfold retirementStep
  dsimp only

/-- The dividend block reads only the fields shared by
`agreeExceptCashFunds`, changes cash additively, and leaves the custom
funds untouched. -/
theorem stockDividendStep_transport (cfg : SimConfig) (age : Nat) (p : ℚ) (a b : Assets)
    (h : agreeExceptCashFunds a b) :
    agreeExceptCashFunds (stockDividendStep cfg age p a).2.1
      (stockDividendStep cfg age p b).2.1 ∧
    (stockDividendStep cfg age p a).2.2 = (stockDividendStep cfg age p b).2.2 ∧
    ((stockDividendStep cfg age p a).2.1.cash_balance - a.cash_balance =
      (stockDividendStep cfg age p b).2.1.cash_balance - b.cash_balance) ∧
    (stockDividendStep cfg age p a).2.1.custom_funds = a.custom_funds ∧
    (stockDividendStep cfg age p b).2.1.custom_funds = b.custom_funds := by
  obtain ⟨h1, h2, h3, h4, h5, h6, h7, h8⟩ := h
  unfold stockDividendStep
  dsimp only
  rw [h4]
  split_ifs <;>
    refine ⟨⟨?_, ?_, ?_, ?_, ?_, ?_, ?_, ?_⟩, rfl, by try dsimp only; ring, rfl, rfl⟩ <;>
    first | rfl | assumption

/-- The marriage block reads only the marriage fund, changes cash
additively, and leaves the custom funds untouched. -/
theorem marriageStep_transport (cfg : SimConfig) (age : Nat) (a b : Assets)
    (h : agreeExceptCashFunds a b) :
    agreeExceptCashFunds (marriageStep cfg age a).1 (marriageStep cfg age b).1 ∧
    (marriageStep cfg age a).2 = (marriageStep cfg age b).2 ∧
    ((marriageStep cfg age a).1.cash_balance - a.cash_balance =
      (marriageStep cfg age b).1.cash_balance - b.cash_balance) ∧
    (marriageStep cfg age a).1.custom_funds = a.custom_funds ∧
    (marriageStep cfg age b).1.custom_funds = b.custom_funds := by
  obtain ⟨h1, h2, h3, h4, h5, h6, h7, h8⟩ := h
  unfold marriageStep
  dsimp only
  rw [h6]
  split_ifs <;>
    refine ⟨⟨?_, ?_, ?_, ?_, ?_, ?_, ?_, ?_⟩, rfl, by try dsimp only; ring, rfl, rfl⟩ <;>
    first | rfl | assumption

/-- The university block reads only the education fund, changes cash
additively, and leaves the custom funds untouched. -/
theorem universityStep_transport (cfg : SimConfig) (age : Nat) (a b : Assets)
    (h : agreeExceptCashFunds a b) :
    agreeExceptCashFunds (universityStep cfg age a).1 (universityStep cfg age b).1 ∧
    (universityStep cfg age a).2.1 = (universityStep cfg age b).2.1 ∧
    ((universityStep cfg age a).1.cash_balance - a.cash_balance =
      (universityStep cfg age b).1.cash_balance - b.cash_balance) ∧
    (universityStep cfg age a).1.custom_funds = a.custom_funds ∧
    (universityStep cfg age b).1.custom_funds = b.custom_funds := by
  obtain ⟨h1, h2, h3, h4, h5, h6, h7, h8⟩ := h
  unfold universityStep
  dsimp only
  rw [h5]
  split_ifs <;>
    refine ⟨⟨?_, ?_, ?_, ?_, ?_, ?_, ?_, ?_⟩, rfl, by try dsimp only; ring, rfl, rfl⟩ <;>
    first | rfl | assumption

/-- Settling one custom event reads only the custom funds, changes
cash additively, and leaves every other field untouched. -/
theorem processCustomEvent_transport (a b : Assets) (e : CustomEvent)
    (h : a.custom_funds = b.custom_funds) :
    (processCustomEvent a e).2 = (processCustomEvent b e).2 ∧
    (processCustomEvent a e).1.custom_funds = (processCustomEvent b e).1.custom_funds ∧
    ((processCustomEvent a e).1.cash_balance - a.cash_balance =
      (processCustomEvent b e).1.cash_balance - b.cash_balance) ∧
    agreeExceptCashFunds (processCustomEvent a e).1 a ∧
    agreeExceptCashFunds (processCustomEvent b e).1 b := by
  unfold processCustomEvent
  dsimp only
  rw [h]
  split_ifs <;>
    exact ⟨rfl, rfl, by try dsimp only; ring,
      ⟨rfl, rfl, rfl, rfl, rfl, rfl, rfl, rfl⟩, ⟨rfl, rfl, rfl, rfl, rfl, rfl, rfl, rfl⟩⟩

/-- Record accumulation of the custom-events fold: the accumulator is
a prefix of the result and does not influence the asset part. -/
theorem customFold_shift : ∀ (l : List CustomEvent) (a : Assets)
    (racc : List IrregularExpense),
    (l.foldl (fun acc e =>
        let r := processCustomEvent acc.1 e
        (r.1, acc.2 ++ [r.2])) (a, racc)).1 =
      (l.foldl (fun acc e =>
        let r := processCustomEvent acc.1 e
        (r.1, acc.2 ++ [r.2])) (a, ([] : List IrregularExpense))).1 ∧
    (l.foldl (fun acc e =>
        let r := processCustomEvent acc.1 e
        (r.1, acc.2 ++ [r.2])) (a, racc)).2 =
      racc ++ (l.foldl (fun acc e =>
        let r := processCustomEvent acc.1 e
        (r.1, acc.2 ++ [r.2])) (a, ([] : List IrregularExpense))).2 := by
  intro l
  induction l with
  | nil => intro a racc; exact ⟨rfl, by simp⟩
  | cons e t ih =>
    intro a racc
    rw [List.foldl_cons, List.foldl_cons]
    dsimp only
    obtain ⟨s1, s2⟩ := ih (processCustomEvent a e).1 (racc ++ [(processCustomEvent a e).2])
    obtain ⟨t1, t2⟩ := ih (processCustomEvent a e).1 ([] ++ [(processCustomEvent a e).2])
    refine ⟨s1.trans t1.symm, ?_⟩
    rw [s2, t2]
    simp

/-- The custom-events fold reads only the custom funds, changes cash
additively, and leaves every other field untouched. -/
theorem customFold_transport : ∀ (l : List CustomEvent) (a b : Assets),
    a.custom_funds = b.custom_funds →
    (l.foldl (fun acc e =>
        let r := processCustomEvent acc.1 e
        (r.1, acc.2 ++ [r.2])) (a, ([] : List IrregularExpense))).2 =
      (l.foldl (fun acc e =>
        let r := processCustomEvent acc.1 e
        (r.1, acc.2 ++ [r.2])) (b, ([] : List IrregularExpense))).2 ∧
    (l.foldl (fun acc e =>
        let r := processCustomEvent acc.1 e
        (r.1, acc.2 ++ [r.2])) (a, ([] : List IrregularExpense))).1.custom_funds =
      (l.foldl (fun acc e =>
        let r := processCustomEvent acc.1 e
        (r.1, acc.2 ++ [r.2])) (b, ([] : List IrregularExpense))).1.custom_funds ∧
    ((l.foldl (fun acc e =>
        let r := processCustomEvent acc.1 e
        (r.1, acc.2 ++ [r.2])) (a, ([] : List IrregularExpense))).1.cash_balance -
        a.cash_balance =
      (l.foldl (fun acc e =>
        let r := processCustomEvent acc.1 e
        (r.1, acc.2 ++ [r.2])) (b, ([] : List IrregularExpense))).1.cash_balance -
        b.cash_balance) ∧
    agreeExceptCashFunds (l.foldl (fun acc e =>
        let r := processCustomEvent acc.1 e
        (r.1, acc.2 ++ [r.2])) (a, ([] : List IrregularExpense))).1 a ∧
    agreeExceptCashFunds (l.foldl (fun acc e =>
        let r := processCustomEvent acc.1 e
        (r.1, acc.2 ++ [r.2])) (b, ([] : List IrregularExpense))).1 b := by
  intro l
  induction l with
  | nil =>
    intro a b h
    exact ⟨rfl, h, by dsimp only [List.foldl]; ring, agree_refl a, agree_refl b⟩
  | cons e t ih =>
    intro a b h
    obtain ⟨p1, p2, p3, p4, p5⟩ := processCustomEvent_transport a b e h
    rw [List.foldl_cons, List.foldl_cons]
    dsimp only
    obtain ⟨sa1, sa2⟩ := customFold_shift t (processCustomEvent a e).1
      ([] ++ [(processCustomEvent a e).2])
    obtain ⟨sb1, sb2⟩ := customFold_shift t (processCustomEvent b e).1
      ([] ++ [(processCustomEvent b e).2])
    obtain ⟨i1, i2, i3, i4, i5⟩ := ih (processCustomEvent a e).1 (processCustomEvent b e).1 p2
    refine ⟨?_, ?_, ?_, ?_, ?_⟩
    · rw [sa2, sb2, p1, i1]
    · rw [sa1, sb1]
      exact i2
    · rw [sa1, sb1]
      have := i3
      linarith [p3, this]
    · rw [sa1]
      exact agree_trans i4 p4
    · rw [sb1]
      exact agree_trans i5 p5

/-- The custom-events block reads only the custom funds, changes cash
additively, and leaves every other field untouched. -/
theorem customEventsStep_transport (cfg : SimConfig) (age : Nat) (a b : Assets)
    (h : a.custom_funds = b.custom_funds) :
    (customEventsStep cfg age a).2 = (customEventsStep cfg age b).2 ∧
    (customEventsStep cfg age a).1.custom_funds =
      (customEventsStep cfg age b).1.custom_funds ∧
    ((customEventsStep cfg age a).1.cash_balance - a.cash_balance =
      (customEventsStep cfg age b).1.cash_balance - b.cash_balance) ∧
    agreeExceptCashFunds (customEventsStep cfg age a).1 a ∧
    agreeExceptCashFunds (customEventsStep cfg age b).1 b := by
  unfold customEventsStep
  exact customFold_transport (get_custom_events_for_age cfg age) a b h

/-- C6 (corrected): the source's year-end order is education costs →
custom events → stock price/dividends → marriage → home purchase →
university costs → retirement benefit, not the spec's order with the
custom events after the home purchase; but in any year without a home
purchase the two orders produce the same state and record, because the
custom-events block commutes with the dividend, marriage and
university blocks. -/
theorem yearend_order_agrees_without_home_purchase (cfg : SimConfig) (age : Nat)
    (ya : YearAcc) (hage : age ≠ cfg.life_events.home_purchase.age) :
    yearEndStep cfg age ya = specOrderYearEnd cfg age ya := by
  have hH : ∀ x : Assets, homePurchaseStep cfg age x = (x, []) := by
    intro x
    unfold homePurchaseStep
    rw [if_neg hage]
  obtain ⟨cr0, cf0, cδ0, cA0, cA0b⟩ :=
    customEventsStep_transport cfg age (educationCostStep cfg age ya.st.assets).1
      (educationCostStep cfg age ya.st.assets).1 rfl
  obtain ⟨dAg, dDiv, dδ, dFa, dFb⟩ :=
    stockDividendStep_transport cfg age ya.st.stock_price
      (customEventsStep cfg age (educationCostStep cfg age ya.st.assets).1).1
      (educationCostStep cfg age ya.st.assets).1 cA0
  obtain ⟨mAg, mRec, mδ, mFa, mFb⟩ := marriageStep_transport cfg age _ _ dAg
  obtain ⟨uAg, uRec, uδ, uFa, uFb⟩ := universityStep_transport cfg age _ _ mAg
  have hfB3 : (universityStep cfg age (marriageStep cfg age
      (stockDividendStep cfg age ya.st.stock_price
        (educationCostStep cfg age ya.st.assets).1).2.1).1).1.custom_funds =
      (educationCostStep cfg age ya.st.assets).1.custom_funds := by
    rw [uFb, mFb, dFb]
  obtain ⟨cr3, cf3, cδ3, cB3, cB3b⟩ := customEventsStep_transport cfg age _ _ hfB3
  have hA : (universityStep cfg age (marriageStep cfg age
        (stockDividendStep cfg age ya.st.stock_price
          (customEventsStep cfg age (educationCostStep cfg age ya.st.assets).1).1).2.1).1).1 =
      (customEventsStep cfg age (universityStep cfg age (marriageStep cfg age
        (stockDividendStep cfg age ya.st.stock_price
          (educationCostStep cfg age ya.st.assets).1).2.1).1).1).1 := by
    obtain ⟨u1, u2, u3, u4, u5, u6, u7, u8⟩ := uAg
    obtain ⟨b1, b2, b3, b4, b5, b6, b7, b8⟩ := cB3
    apply Assets.ext
    · exact u1.trans b1.symm
    · exact u2.trans b2.symm
    · exact u3.trans b3.symm
    · exact u4.trans b4.symm
    · exact u5.trans b5.symm
    · exact u6.trans b6.symm
    · exact u7.trans b7.symm
    · linarith [uδ, mδ, dδ, cδ3]
    · exact u8.trans b8.symm
    · rw [uFa, mFa, dFa, cf3]
  have hPrice : (stockDividendStep cfg age ya.st.stock_price
        (customEventsStep cfg age (educationCostStep cfg age ya.st.assets).1).1).1 =
      (stockDividendStep cfg age ya.st.stock_price
        (educationCostStep cfg age ya.st.assets).1).1 := by
    rw [stockDividendStep_price, stockDividendStep_price]
  have uCost := universityStep_cost cfg age
    (marriageStep cfg age (stockDividendStep cfg age ya.st.stock_price
      (customEventsStep cfg age (educationCostStep cfg age ya.st.assets).1).1).2.1).1
    (marriageStep cfg age (stockDividendStep cfg age ya.st.stock_price
      (educationCostStep cfg age ya.st.assets).1).2.1).1
  unfold yearEndStep specOrderYearEnd
  dsimp only
  simp only [hH]
  rw [hA, hPrice, dDiv, mRec, uRec, uCost, cr3]

/-- Witness: at age 31 (no home purchase in `cfgOrder` that year) the
source order and the spec's order coincide. -/
theorem yearend_order_agrees_without_home_purchase_witness :
    (31 : Nat) ≠ cfgOrder.life_events.home_purchase.age ∧
    yearEndStep cfgOrder 31 (initYearAcc stOrder) =
      specOrderYearEnd cfgOrder 31 (initYearAcc stOrder) :=
  ⟨by decide,
   yearend_order_agrees_without_home_purchase cfgOrder 31 (initYearAcc stOrder) (by decide)⟩

/-- Counterexample to the claimed order: at the home-purchase age 30,
with 5,000,000 cash, a 10,000,000 education fund, a 4,000,000 custom
event and a 2,500,000 home purchase, the source order (custom events
before the purchase) drains 1,500,000 from the education fund, while
the spec's order (custom events after the purchase) leaves it whole. -/
theorem yearend_spec_order_differs :
    (yearEndStep cfgOrder 30 (initYearAcc stOrder)).1.assets.education_fund_balance ≠
      (specOrderYearEnd cfgOrder 30 (initYearAcc stOrder)).1.assets.education_fund_balance := by
  norm_num [yearEndStep, specOrderYearEnd, initYearAcc, stOrder, cfgOrder, cfgBase, eOrder,
    educationCostStep, childEducationCost, customEventsStep, get_custom_events_for_age,
    get_active_custom_events, processCustomEvent, aget, aset, stockDividendStep,
    marriageStep, homePurchaseStep, homePurchaseRecords, universityStep, universityDetails,
    retirementStep, get_retirement_benefit, namedSum, customFundRecords, apply_inflation]

/-! ## C7: bonus take-home -/

/-- C7 (amended): in a bonus month the bonus take-home equals
`calculate_takehome` applied directly to half of the annual bonus gross
(`base_salary * bonus_months / 2`), not the difference between
total-annual and base-only take-home. -/
theorem bonus_net_direct (cfg : SimConfig) (age month : Nat) (a : Assets)
    (h : month = 6 ∨ month = 12) :
    (calculate_monthly_data cfg age month a).income.bonus_net =
      calculate_takehome cfg.tax_rates
        ((get_salary_for_age cfg.income_progression age).base_salary *
          (get_salary_for_age cfg.income_progression age).bonus_months / 2) 0 := by
  simp only [calculate_monthly_data, if_pos h]

theorem bonus_net_direct_witness :
    ((6 : Nat) = 6 ∨ (6 : Nat) = 12) ∧
    (calculate_monthly_data cfgBonus 30 6 (initAssets cfgBonus)).income.bonus_net =
      calculate_takehome cfgBonus.tax_rates
        ((get_salary_for_age cfgBonus.income_progression 30).base_salary *
          (get_salary_for_age cfgBonus.income_progression 30).bonus_months / 2) 0 :=
  ⟨Or.inl rfl, bonus_net_direct cfgBonus 30 6 (initAssets cfgBonus) (Or.inl rfl)⟩

/-! ## C2: the NISA lifetime caps are never exceeded -/

theorem cappedBucketUpdate_counter_le (limit cr tr c : ℚ) (cs : CappedState)
    (h : cs.counter ≤ limit) :
    (cappedBucketUpdate limit cr tr c cs).counter ≤ limit := by
  unfold cappedBucketUpdate
  split_ifs with h1 h2
  · dsimp only
    have := min_le_right c (limit - cs.counter)
    linarith
  · exact h
  · exact h

theorem monthStep_capOK (cfg : SimConfig) (age : Nat) (ya : YearAcc) (month : Nat)
    (h : CapOK cfg ya.st) : CapOK cfg (monthStep cfg age ya month).st := by
  exact ⟨cappedBucketUpdate_counter_le _ _ _ _ _ h.1,
         cappedBucketUpdate_counter_le _ _ _ _ _ h.2⟩

theorem yearEndStep_capOK (cfg : SimConfig) (age : Nat) (ya : YearAcc)
    (h : CapOK cfg ya.st) : CapOK cfg (yearEndStep cfg age ya).1 := h

/-- C2: in every simulated month of every run (and across year ends),
the cumulative lifetime contribution absorbed into each capped NISA
bucket never exceeds its configured cap. -/
theorem nisa_caps_never_exceeded (cfg : SimConfig)
    (ht : 0 ≤ cfg.investment_settings.nisa.tsumitate_limit)
    (hg : 0 ≤ cfg.investment_settings.nisa.growth_limit) :
    ∀ s ∈ simTrace cfg, CapOK cfg s :=
  runTrace_all cfg (monthStep_capOK cfg) (yearEndStep_capOK cfg)
    (agesList cfg) (initState cfg) ⟨ht, hg⟩

theorem nisa_caps_never_exceeded_witness :
    (0 : ℚ) ≤ cfgBase.investment_settings.nisa.tsumitate_limit ∧
    (0 : ℚ) ≤ cfgBase.investment_settings.nisa.growth_limit ∧
    ∀ s ∈ simTrace cfgBase, CapOK cfgBase s :=
  ⟨by norm_num [cfgBase], by norm_num [cfgBase],
   nisa_caps_never_exceeded cfgBase (by norm_num [cfgBase]) (by norm_num [cfgBase])⟩

/-! ## C1: conservation of the yearly total -/

theorem monthStep_summary (cfg : SimConfig) (age : Nat) (ya : YearAcc) (month : Nat) :
    (monthStep cfg age ya month).st.yearly_summary = ya.st.yearly_summary := rfl

theorem foldl_monthStep_summary (cfg : SimConfig) (age : Nat) :
    ∀ (l : List Nat) (ya : YearAcc),
      (l.foldl (monthStep cfg age) ya).st.yearly_summary = ya.st.yearly_summary := by
  intro l
  induction l with
  | nil => intro ya; rfl
  | cons m t ih => intro ya; rw [List.foldl_cons, ih, monthStep_summary]

theorem yearEndStep_summary (cfg : SimConfig) (age : Nat) (ya : YearAcc) :
    (yearEndStep cfg age ya).1.yearly_summary =
      ya.st.yearly_summary ++ [(yearEndStep cfg age ya).2] := rfl

theorem yearStep_summary (cfg : SimConfig) (age : Nat) (s : SimState) :
    (yearStep cfg age s).1.yearly_summary = s.yearly_summary ++ [(yearStep cfg age s).2] := by
  show (yearEndStep cfg age (monthsList.foldl (monthStep cfg age) (initYearAcc s))).1.yearly_summary
    = _
  rw [yearEndStep_summary, foldl_monthStep_summary]
  rfl

theorem simulate_summary (cfg : SimConfig) : ∀ (ages : List Nat) (s : SimState),
    (ages.foldl (fun s a => (yearStep cfg a s).1) s).yearly_summary =
      s.yearly_summary ++ (yearPairs cfg ages s).map Prod.snd := by
  intro ages
  induction ages with
  | nil => intro s; simp [yearPairs]
  | cons a t ih =>
    intro s
    rw [List.foldl_cons, ih, yearStep_summary]
    simp [yearPairs]

/-- The `assets_end` field of the record a year-end step produces is
the recomputed sum of the named balances of the ledger at that
boundary. -/
theorem yearEndStep_assets_end (cfg : SimConfig) (age : Nat) (ya : YearAcc) :
    (yearEndStep cfg age ya).2.assets_end = namedSum cfg (yearEndStep cfg age ya).1.assets := rfl

/-- C1: every yearly record of `simulate_30_years` carries an
`assets_end` equal to the sum of the named year-end balances of the
ledger at that boundary (NISA tsumitate, NISA growth, company stock,
education fund, marriage fund, taxable account, cash, and the
custom-event funds); the total is recomputed from the named balances at
each year end, never carried forward independently.  `yearPairs` pairs
each produced record with the ledger at the moment of its
production. -/
theorem yearly_assets_end_conservation (cfg : SimConfig) :
    (simulate_30_years cfg).2 =
      (yearPairs cfg (agesList cfg) (initState cfg)).map Prod.snd ∧
    ∀ p ∈ yearPairs cfg (agesList cfg) (initState cfg),
      p.2.assets_end = namedSum cfg p.1 := by
  constructor
  · have h := simulate_summary cfg (agesList cfg) (initState cfg)
    simpa [simulate_30_years, initState] using h
  · have hgen : ∀ (ages : List Nat) (s : SimState), ∀ p ∈ yearPairs cfg ages s,
        p.2.assets_end = namedSum cfg p.1 := by
      intro ages
      induction ages with
      | nil => intro s p hp; simp [yearPairs] at hp
      | cons a t ih =>
        intro s p hp
        simp only [yearPairs, List.mem_cons] at hp
        rcases hp with rfl | hp
        · exact yearEndStep_assets_end cfg a _
        · exact ih _ p hp
    exact hgen _ _

/-! ## C8: capped-bucket convergence and overflow routing -/

/-- Exact characterisation of the capped-bucket fold at zero return
rates: the lifetime counter is the running request total clipped at the
cap, the capped balance moves exactly with the counter, and the amount
absorbed plus the amount redirected never exceeds the amount
requested. -/
theorem cappedRun_zero_spec (limit : ℚ) :
    ∀ (reqs : List ℚ) (cs : CappedState), cs.counter ≤ limit → (∀ r ∈ reqs, 0 ≤ r) →
      (cappedRun limit 0 0 reqs cs).counter = min limit (cs.counter + reqs.sum) ∧
      (cappedRun limit 0 0 reqs cs).capped_balance - cs.capped_balance =
        (cappedRun limit 0 0 reqs cs).counter - cs.counter ∧
      ((cappedRun limit 0 0 reqs cs).counter - cs.counter) +
        ((cappedRun limit 0 0 reqs cs).taxable_balance - cs.taxable_balance) ≤ reqs.sum := by
  intro reqs
  induction reqs with
  | nil =>
    rintro ⟨c, b, tx⟩ hc _
    have hc' : c ≤ limit := hc
    have hm : min limit (c + 0) = c := by rw [add_zero]; exact min_eq_right hc'
    exact ⟨by simpa [cappedRun] using hm.symm, by simp [cappedRun], by simp [cappedRun]⟩
  | cons r t ih =>
    rintro ⟨c, b, tx⟩ hc hr
    have hcl : c ≤ limit := hc
    have hr0 : 0 ≤ r := hr r (List.mem_cons_self r t)
    have hrt : ∀ x ∈ t, 0 ≤ x := fun x hx => hr x (List.mem_cons_of_mem r hx)
    have hts : 0 ≤ t.sum := List.sum_nonneg hrt
    by_cases hpos : 0 < r
    · by_cases hlt : c < limit
      · -- contributing month below the cap
        have hstep : cappedRun limit 0 0 (r :: t) ⟨c, b, tx⟩ =
            cappedRun limit 0 0 t
              ⟨c + min r (limit - c), b + min r (limit - c), tx⟩ := by
          show cappedRun limit 0 0 t (cappedBucketUpdate limit 0 0 r ⟨c, b, tx⟩) = _
          congr 1
          simp only [cappedBucketUpdate, if_pos hpos, if_pos hlt]
          rw [show ((b + min r (limit - c)) * (1 + 0 / 12) : ℚ) = b + min r (limit - c) by ring]
        have hml : min r (limit - c) ≤ limit - c := min_le_right _ _
        have hmr : min r (limit - c) ≤ r := min_le_left _ _
        obtain ⟨i1, i2, i3⟩ :=
          ih ⟨c + min r (limit - c), b + min r (limit - c), tx⟩
            (by show c + min r (limit - c) ≤ limit; linarith) hrt
        dsimp only at i1 i2 i3
        refine ⟨?_, ?_, ?_⟩
        · rw [hstep, i1, List.sum_cons]
          show min limit (c + min r (limit - c) + t.sum) = min limit (c + (r + t.sum))
          rcases le_or_lt (c + r) limit with hle | hgt
          · rw [min_eq_left (show r ≤ limit - c by linarith)]
            congr 1
            ring
          · rw [min_eq_right (show limit - c ≤ r by linarith)]
            have e1 : c + (limit - c) + t.sum = limit + t.sum := by ring
            rw [e1, min_eq_left (show limit ≤ limit + t.sum by linarith),
              min_eq_left (show limit ≤ c + (r + t.sum) by linarith)]
        · rw [hstep]
          show _ - b = _ - c
          linarith [i2]
        · rw [hstep, List.sum_cons]
          show (_ - c) + (_ - tx) ≤ r + t.sum
          linarith [i3]
      · -- at the cap: the request goes to the taxable balance
        have heq : c = limit := le_antisymm hcl (not_lt.mp hlt)
        have hstep : cappedRun limit 0 0 (r :: t) ⟨c, b, tx⟩ =
            cappedRun limit 0 0 t ⟨c, b, tx + r⟩ := by
          show cappedRun limit 0 0 t (cappedBucketUpdate limit 0 0 r ⟨c, b, tx⟩) = _
          congr 1
          simp only [cappedBucketUpdate, if_pos hpos, if_neg hlt]
          rw [show ((tx + r) * (1 + 0 / 12) : ℚ) = tx + r by ring]
        obtain ⟨i1, i2, i3⟩ := ih ⟨c, b, tx + r⟩ hcl hrt
        dsimp only at i1 i2 i3
        refine ⟨?_, ?_, ?_⟩
        · rw [hstep, i1, List.sum_cons]
          show min limit (c + t.sum) = min limit (c + (r + t.sum))
          rw [heq, min_eq_left (show limit ≤ limit + t.sum by linarith),
            min_eq_left (show limit ≤ limit + (r + t.sum) by linarith)]
        · rw [hstep]
          exact i2
        · rw [hstep, List.sum_cons]
          show (_ - c) + (_ - tx) ≤ r + t.sum
          linarith [i3]
    · -- a non-positive request is skipped
      have hz : r = 0 := le_antisymm (not_lt.mp hpos) hr0
      have hstep : cappedRun limit 0 0 (r :: t) ⟨c, b, tx⟩ =
          cappedRun limit 0 0 t ⟨c, b, tx⟩ := by
        show cappedRun limit 0 0 t (cappedBucketUpdate limit 0 0 r ⟨c, b, tx⟩) = _
        congr 1
        simp only [cappedBucketUpdate, if_neg hpos]
      obtain ⟨i1, i2, i3⟩ := ih ⟨c, b, tx⟩ hc hrt
      refine ⟨?_, ?_, ?_⟩
      · rw [hstep, i1, List.sum_cons, hz, zero_add]
      · rw [hstep]; exact i2
      · rw [hstep, List.sum_cons, hz, zero_add]; exact i3

/-- C8 (amended): over a horizon of non-negative monthly requests
totalling twice the cap, the cumulative contribution absorbed by the
capped bucket converges to exactly the cap `C` (and at zero return the
capped balance equals it), but the redirected remainder is only bounded
by `total - C`: full post-cap requests go to the taxable bucket while
the partial overflow of the month that crosses the cap is dropped, so
the redirected amount can fall short of `total - C` (see the
counterexample). -/
theorem capped_bucket_scenario_b (limit : ℚ) (reqs : List ℚ)
    (hl : 0 ≤ limit) (hr : ∀ r ∈ reqs, 0 ≤ r) (hsum : reqs.sum = 2 * limit) :
    (cappedRun limit 0 0 reqs ⟨0, 0, 0⟩).counter = limit ∧
    (cappedRun limit 0 0 reqs ⟨0, 0, 0⟩).capped_balance = limit ∧
    (cappedRun limit 0 0 reqs ⟨0, 0, 0⟩).counter +
      (cappedRun limit 0 0 reqs ⟨0, 0, 0⟩).taxable_balance ≤ reqs.sum := by
  obtain ⟨i1, i2, i3⟩ := cappedRun_zero_spec limit reqs ⟨0, 0, 0⟩ (by simpa using hl) hr
  have hcnt : (cappedRun limit 0 0 reqs ⟨0, 0, 0⟩).counter = limit := by
    rw [i1, hsum]
    simp only
    rw [zero_add, min_eq_left (by linarith)]
  refine ⟨hcnt, ?_, ?_⟩
  · simp only at i2
    rw [hcnt] at i2
    linarith [i2]
  · simp only at i3
    rw [hcnt] at i3
    linarith [i3]

theorem capped_bucket_scenario_b_witness :
    (0 : ℚ) ≤ 100 ∧ (∀ r ∈ ([60, 60, 60, 20] : List ℚ), 0 ≤ r) ∧
    ([60, 60, 60, 20] : List ℚ).sum = 2 * 100 ∧
    ((cappedRun 100 0 0 [60, 60, 60, 20] ⟨0, 0, 0⟩).counter = 100 ∧
     (cappedRun 100 0 0 [60, 60, 60, 20] ⟨0, 0, 0⟩).capped_balance = 100 ∧
     (cappedRun 100 0 0 [60, 60, 60, 20] ⟨0, 0, 0⟩).counter +
       (cappedRun 100 0 0 [60, 60, 60, 20] ⟨0, 0, 0⟩).taxable_balance ≤
       ([60, 60, 60, 20] : List ℚ).sum) :=
  ⟨by norm_num, by norm_num, by norm_num,
   capped_bucket_scenario_b 100 [60, 60, 60, 20] (by norm_num) (by norm_num) (by norm_num)⟩

/-- C8 counterexample: cap 100, monthly requests 60, 60, 60, 20
(total 200 = 2 x 100).  The crossing month absorbs only 40 of its
60-unit request; the remaining 20 are dropped, so the taxable bucket
receives 80, not the full remainder 100 as the claim requires. -/
theorem capped_overflow_dropped :
    (cappedRun 100 0 0 [60, 60, 60, 20] ⟨0, 0, 0⟩).counter = 100 ∧
    ([60, 60, 60, 20] : List ℚ).sum = 2 * 100 ∧
    (cappedRun 100 0 0 [60, 60, 60, 20] ⟨0, 0, 0⟩).taxable_balance = 80 ∧
    (cappedRun 100 0 0 [60, 60, 60, 20] ⟨0, 0, 0⟩).taxable_balance ≠
      ([60, 60, 60, 20] : List ℚ).sum - 100 := by
  norm_num [cappedRun, cappedBucketUpdate, List.foldl, min_def]

/-- C7 counterexample: with a single anchor of 400,000 monthly salary
and four bonus months and a flat 20 %/30 % two-band tax table, the
bonus-month take-home recorded by `calculate_monthly_data` is 640,000,
whereas the claimed difference formula
`(takehome(base+bonus) - takehome(base only)) / 2` gives 320,000. -/
theorem bonus_net_not_difference :
    (calculate_monthly_data cfgBonus 30 6 (initAssets cfgBonus)).income.bonus_net = 640000 ∧
    (calculate_takehome cfgBonus.tax_rates (400000 * (12 + 4)) 0 -
      calculate_takehome cfgBonus.tax_rates (400000 * 12) 0) / 2 = 320000 ∧
    (calculate_monthly_data cfgBonus 30 6 (initAssets cfgBonus)).income.bonus_net ≠
      (calculate_takehome cfgBonus.tax_rates (400000 * (12 + 4)) 0 -
        calculate_takehome cfgBonus.tax_rates (400000 * 12) 0) / 2 := by
  refine ⟨?_, ?_, ?_⟩
  · norm_num [calculate_monthly_data, calculate_takehome, calculate_social_insurance_detailed,
      get_salary_for_age, cfgBonus, cfgBase, List.insertionSort, List.orderedInsert,
      anchorLoop, List.lookup]
  · norm_num [calculate_takehome, calculate_social_insurance_detailed, cfgBonus, cfgBase]
  · norm_num [calculate_monthly_data, calculate_takehome, calculate_social_insurance_detailed,
      get_salary_for_age, cfgBonus, cfgBase, List.insertionSort, List.orderedInsert,
      anchorLoop, List.lookup]

end LifePlan
